import Mathlib

/-
Verification of the ClawFix diagnosis pipeline (clawfix), a shallow embedding of:
  src/known-issues.js   (rule registry and detection engine),
  src/routes/diagnose.js (pipeline, script composer, result cache, read paths),
  src/landing.js        (durable store: storeDiagnosis, getDiagnosis, pattern counters).
JavaScript values observed by the rules are modelled by `JsVal`; the regular
expressions used by the detection predicates are modelled by a small executable
matcher (`Rx`) covering exactly the constructs those patterns use (literals,
alternation, the dot-star gap, the bounded any-character gap, digit runs).
Case-insensitive patterns are matched against the lowercased subject with
lowercased literals. JavaScript numeric fields that the rules compare with
fixed cutoffs are modelled as integers.
-/

/-- Model of the JavaScript values the diagnostic snapshot may carry at the
leaves the detection predicates read. `obj` stands for any object value
(truthy, never strictly equal to a primitive literal). -/
inductive JsVal where
  | undef : JsVal
  | nullv : JsVal
  | bool : Bool → JsVal
  | num : Int → JsVal
  | str : String → JsVal
  | obj : JsVal
deriving DecidableEq, Repr

/-- JavaScript truthiness of a modelled value. -/
def JsVal.truthy : JsVal → Bool
  | .undef => false
  | .nullv => false
  | .bool b => b
  | .num n => n != 0
  | .str s => s != ""
  | .obj => true

/-- JavaScript strict equality against the literals the predicates compare with.
Object values are never strictly equal to any primitive literal; the source code
never compares two object-valued fields with each other. -/
def jsEq : JsVal → JsVal → Bool
  | .obj, _ => false
  | _, .obj => false
  | a, b => a == b

/-- JavaScript `&&`: returns the left operand when it is falsy, else the right. -/
def jsAnd (a b : JsVal) : JsVal := if a.truthy then b else a

/-- JavaScript `||`: returns the left operand when it is truthy, else the right. -/
def jsOr (a b : JsVal) : JsVal := if a.truthy then a else b

/-- JavaScript `!`. -/
def jsNot (a : JsVal) : JsVal := .bool (!a.truthy)

/-- Model of JavaScript `x > k` for a possibly-absent numeric field: comparing
`undefined` with a number yields `NaN` comparisons, hence `false`. -/
def optGt (o : Option Int) (k : Int) : Bool :=
  match o with
  | some n => n > k
  | none => false

/-- Model of JavaScript `x < k` for a possibly-absent numeric field. -/
def optLt (o : Option Int) (k : Int) : Bool :=
  match o with
  | some n => n < k
  | none => false

/-- Model of JavaScript `x || ''` for a possibly-absent string field: both an
absent field and an empty string yield the empty string. -/
def strOrEmpty (o : Option String) : String := o.getD ""

/-- Model of JavaScript `a || b || ''` over two possibly-absent string fields
(an empty string is falsy and falls through). -/
def strOrElse (a b : Option String) : String :=
  match a with
  | some x => if x = "" then strOrEmpty b else x
  | none => strOrEmpty b

/-- String coercion JavaScript applies when a non-string value reaches a regex
test or `parseInt`. -/
def jsToString : JsVal → String
  | .undef => "undefined"
  | .nullv => "null"
  | .bool b => if b then "true" else "false"
  | .num n => toString n
  | .str s => s
  | .obj => "[object Object]"

/-- Digits prefix of a character list as a number, for the `parseInt` model. -/
def digitsVal : List Char → Option Nat → Option Nat
  | [], acc => acc
  | c :: cs, acc =>
      if c.isDigit then
        digitsVal cs (some ((acc.getD 0) * 10 + (c.toNat - '0'.toNat)))
      else acc

/-- Model of JavaScript `parseInt` on a coerced string: skip leading whitespace,
read an optional sign and then leading decimal digits; `none` models `NaN`. -/
def jsParseInt (v : JsVal) : Option Int :=
  let cs := (jsToString v).data.dropWhile (fun c => c = ' ' || c = '\t' || c = '\n' || c = '\r')
  match cs with
  | '-' :: rest => (digitsVal rest none).map (fun n => -(n : Int))
  | '+' :: rest => (digitsVal rest none).map (fun n => (n : Int))
  | rest => (digitsVal rest none).map (fun n => (n : Int))

/-- Model of JavaScript `NaN < k` / `n < k` after `parseInt`. -/
def parseIntLt (v : JsVal) (k : Int) : Bool :=
  match jsParseInt v with
  | some n => n < k
  | none => false

/-- Syntax of the regular-expression fragment used by the detection rules:
string literals, alternation, concatenation, the `.*` gap (any characters
except newline), the bounded `[\s\S]\x7b0,n\x7d` gap (any characters, at most n),
and `\d+`. -/
inductive Rx where
  | lit : String → Rx
  | alt : Rx → Rx → Rx
  | seq : Rx → Rx → Rx
  | gapNoNl : Rx
  | gapAnyLe : Nat → Rx
  | digits1 : Rx
deriving Repr

/-- Whole-list matching of the regex fragment; concatenation tries every split
point of the subject. -/
def Rx.matchesFull : Rx → List Char → Bool
  | .lit s, cs => cs == s.data
  | .alt a b, cs => a.matchesFull cs || b.matchesFull cs
  | .seq a b, cs =>
      (List.range (cs.length + 1)).any
        (fun i => a.matchesFull (cs.take i) && b.matchesFull (cs.drop i))
  | .gapNoNl, cs => cs.all (fun c => c != '\n')
  | .gapAnyLe n, cs => cs.length ≤ n
  | .digits1, cs => !cs.isEmpty && cs.all Char.isDigit

/-- Lowercasing by character list (kernel-reducible form of `toLowerCase` for
the case-insensitive patterns; the patterns and subjects are ASCII). -/
def lowerStr (s : String) : String := String.mk (s.data.map Char.toLower)

/-- Unanchored regex test (JavaScript `re.test(s)`): some substring matches. -/
def Rx.test (r : Rx) (s : String) : Bool :=
  let cs := s.data
  (List.range (cs.length + 1)).any fun i =>
    (List.range (cs.length + 1 - i)).any fun len =>
      r.matchesFull ((cs.drop i).take len)

/-- Case-insensitive regex test (`/…/i`), modelled by lowercasing the subject;
the pattern literals are written lowercased. -/
def Rx.testI (r : Rx) (s : String) : Bool := r.test (lowerStr s)

/-- Length of the longest match of `r` at the front of `cs` (greedy), if any. -/
def Rx.longestHere (r : Rx) (cs : List Char) : Option Nat :=
  (List.range (cs.length + 1)).reverse.find? (fun len => r.matchesFull (cs.take len))

/-- Earliest position in `cs` at which `r` matches some prefix of the rest. -/
def Rx.firstPos (r : Rx) (cs : List Char) : Option Nat :=
  (List.range (cs.length + 1)).find? (fun i => (r.longestHere (cs.drop i)).isSome)

/-- Fueled scan counting non-overlapping, leftmost, greedy matches — the model
of JavaScript `(s.match(/…/g) || []).length` for the non-nullable patterns the
rules count. -/
def Rx.countGo (r : Rx) : List Char → Nat → Nat
  | _, 0 => 0
  | cs, fuel + 1 =>
      match r.firstPos cs with
      | none => 0
      | some i =>
          let rest := cs.drop i
          let len := (r.longestHere rest).getD 1
          1 + r.countGo (rest.drop (max len 1)) fuel

/-- Number of matches of a case-insensitive global pattern in a string. -/
def Rx.countI (r : Rx) (s : String) : Nat := r.countGo (lowerStr s).data (s.length + 1)

/-- Flattened model of the diagnostic snapshot (the `diag` argument of every
detection predicate). Each field holds the value of the full optional-chain
access named in the comment; `JsVal.undef` (resp. `none`) models any absent
link of the chain. Only the paths the source code reads are modelled. -/
structure Snapshot where
  hostHash : JsVal                      -- diag.hostHash
  sysOs : JsVal                         -- diag.system?.os
  sysArch : JsVal                       -- diag.system?.arch
  sysNodeVersion : JsVal                -- diag.system?.nodeVersion
  oclawVersion : JsVal                  -- diag.openclaw?.version
  pluginsEntries : List (String × JsVal)  -- key k ↦ diag.config?.plugins?.entries?.[k]?.config?.enableGraph
  hybridEnabled : JsVal                 -- diag.config?.agents?.defaults?.memorySearch?.query?.hybrid?.enabled
  sessionTranscriptsEnabled : JsVal     -- diag.config?.agents?.defaults?.memorySearch?.sessionTranscripts?.enabled
  contextPruning : JsVal                -- diag.config?.agents?.defaults?.contextPruning
  memoryFlushEnabled : JsVal            -- diag.config?.agents?.defaults?.compaction?.memoryFlush?.enabled
  compactionReserveTokensFloor : JsVal  -- diag.config?.agents?.defaults?.compaction?.reserveTokensFloor
  compactionMode : JsVal                -- diag.config?.agents?.defaults?.compaction?.mode
  heartbeatEvery : JsVal                -- diag.config?.agents?.defaults?.heartbeat?.every
  heartbeatModel : JsVal                -- diag.config?.agents?.defaults?.heartbeat?.model
  updateAutoEnabled : JsVal             -- diag.config?.update?.auto?.enabled
  gatewayStatus : Option String         -- diag.openclaw?.gatewayStatus
  gatewayPid : JsVal                    -- diag.openclaw?.gatewayPid
  processExists : JsVal                 -- diag.openclaw?.processExists
  portListening : JsVal                 -- diag.openclaw?.portListening
  logsErrors : Option String            -- diag.logs?.errors
  logsStderr : Option String            -- diag.logs?.stderr
  logsGatewayLog : Option String        -- diag.logs?.gatewayLog
  sigtermCount : Option Int             -- diag.logs?.sigtermCount
  errLogSizeMB : Option Int             -- diag.logs?.errLogSizeMB
  hasSoul : JsVal                       -- diag.workspace?.hasSoul
  hasAgents : JsVal                     -- diag.workspace?.hasAgents
  memoryFiles : Option Int              -- diag.workspace?.memoryFiles
  mdFiles : Option Int                  -- diag.workspace?.mdFiles
  serviceManager : Option String        -- diag.service?.manager
  serviceState : Option String          -- diag.service?.state
  serviceExitCode : JsVal               -- diag.service?.exitCode
  serviceRuns : Option Int              -- diag.service?.runs
  serviceUptimeSeconds : Option Int     -- diag.service?.uptimeSeconds
  serviceNRestarts : Option Int         -- diag.service?.nRestarts
deriving Repr

/-- Snapshot with every optional branch absent, used as a base for record
updates in concrete test snapshots. -/
def emptySnapshot : Snapshot :=
  { hostHash := .undef, sysOs := .undef, sysArch := .undef, sysNodeVersion := .undef,
    oclawVersion := .undef, pluginsEntries := [], hybridEnabled := .undef,
    sessionTranscriptsEnabled := .undef, contextPruning := .undef,
    memoryFlushEnabled := .undef, compactionReserveTokensFloor := .undef,
    compactionMode := .undef, heartbeatEvery := .undef, heartbeatModel := .undef,
    updateAutoEnabled := .undef, gatewayStatus := none, gatewayPid := .undef,
    processExists := .undef, portListening := .undef, logsErrors := none,
    logsStderr := none, logsGatewayLog := none, sigtermCount := none,
    errLogSizeMB := none, hasSoul := .undef, hasAgents := .undef,
    memoryFiles := none, mdFiles := none, serviceManager := none,
    serviceState := none, serviceExitCode := .undef, serviceRuns := none,
    serviceUptimeSeconds := none, serviceNRestarts := none }

/-- Pattern of `/running.*pid|state active|listening/i` (gateway-not-running). -/
def statusRunningRx : Rx :=
  .alt (.seq (.lit "running") (.seq .gapNoNl (.lit "pid")))
    (.alt (.lit "state active") (.lit "listening"))

/-- Pattern of `/not running|failed to start|stopped|inactive/i`. -/
def statusDownRx : Rx :=
  .alt (.lit "not running")
    (.alt (.lit "failed to start") (.alt (.lit "stopped") (.lit "inactive")))

/-- Pattern of `/warning/i`. -/
def warningRx : Rx := .lit "warning"

/-- Pattern of `/EADDRINUSE/i` (port-conflict). -/
def eaddrinuseRx : Rx := .lit "eaddrinuse"

/-- Pattern of `/18791.*EADDRINUSE|browser.*control.*fail|browser.*service.*start/i`. -/
def browserPortRx : Rx :=
  .alt (.seq (.lit "18791") (.seq .gapNoNl (.lit "eaddrinuse")))
    (.alt (.seq (.lit "browser") (.seq .gapNoNl (.seq (.lit "control") (.seq .gapNoNl (.lit "fail")))))
      (.seq (.lit "browser") (.seq .gapNoNl (.seq (.lit "service") (.seq .gapNoNl (.lit "start"))))))

/-- Pattern of `/GGML_ASSERT.*ggml-metal|ggml-metal.*ASSERT/i`. -/
def ggmlRx : Rx :=
  .alt (.seq (.lit "ggml_assert") (.seq .gapNoNl (.lit "ggml-metal")))
    (.seq (.lit "ggml-metal") (.seq .gapNoNl (.lit "assert")))

/-- Pattern of `/tool_call_id.*not found|orphan.*tool/i` (orphan-tool-calls). -/
def orphanRx : Rx :=
  .alt (.seq (.lit "tool_call_id") (.seq .gapNoNl (.lit "not found")))
    (.seq (.lit "orphan") (.seq .gapNoNl (.lit "tool")))

/-- Pattern of `/duplicate plugin id detected/i`. -/
def duplicatePluginRx : Rx := .lit "duplicate plugin id detected"

/-- Pattern of `/State dir migration skipped/i`. -/
def stateDirRx : Rx := .lit "state dir migration skipped"

/-- Pattern of `/^\d+m$/` (high-token-usage heartbeat interval; anchored,
case-sensitive). -/
def heartbeatEveryRx : Rx := .seq .digits1 (.lit "m")

/-- Pattern of `/signal SIGTERM received/gi`. -/
def sigtermReceivedRx : Rx := .lit "signal sigterm received"

/-- Pattern of `/listening.*PID/gi`. -/
def listeningPidRx : Rx := .seq (.lit "listening") (.seq .gapNoNl (.lit "pid"))

/-- Pattern of `/config change detected.*evaluating reload[\s\S]\x7b0,500\x7dsignal SIGTERM received/i`. -/
def reloadSigtermRx : Rx :=
  .seq (.lit "config change detected")
    (.seq .gapNoNl (.seq (.lit "evaluating reload") (.seq (.gapAnyLe 500) (.lit "signal sigterm received"))))

/-- Pattern of `/config change detected.*evaluating reload/gi`. -/
def reloadRx : Rx := .seq (.lit "config change detected") (.seq .gapNoNl (.lit "evaluating reload"))

/-- Pattern of `/invalid handshake.*chrome-extension|closed before connect.*chrome-extension/gi`. -/
def handshakeRx : Rx :=
  .alt (.seq (.lit "invalid handshake") (.seq .gapNoNl (.lit "chrome-extension")))
    (.seq (.lit "closed before connect") (.seq .gapNoNl (.lit "chrome-extension")))

/-- Pattern of `/ESOCKETTIMEDOUT/gi`. -/
def esocketRx : Rx := .lit "esockettimedout"

/-- Pattern of `/launchctl.*I\/O error|service.*not found.*load/i`. -/
def launchctlRx : Rx :=
  .alt (.seq (.lit "launchctl") (.seq .gapNoNl (.lit "i/o error")))
    (.seq (.lit "service") (.seq .gapNoNl (.seq (.lit "not found") (.seq .gapNoNl (.lit "load")))))

/-- A registry entry of src/known-issues.js: static metadata, the detection
predicate and the remediation template. `detect` returns the JavaScript value
of the predicate, or `Except.error` when the predicate body throws (no
predicate of the registry can throw over the modelled snapshot space; the
per-rule try/catch handlers of the source are therefore uniformly `.ok`). -/
structure Rule where
  id : String
  severity : String
  title : String
  description : String
  detect : Snapshot → Except Unit JsVal
  fix : String

/-- Rule `mem0-graph-free` of src/known-issues.js. -/
def mem0GraphFreeRule : Rule :=
  { id := "mem0-graph-free", severity := "critical",
    title := "Mem0 enableGraph on Free plan",
    description := "Mem0 plugin has enableGraph: true but this requires the Pro plan ($99/mo). Every autoCapture and autoRecall call silently fails, meaning zero memories are stored.",
    detect := fun diag =>
      .ok (.bool (jsEq ((diag.pluginsEntries.lookup "openclaw-mem0").getD .undef) (.bool true))),
    fix := "# Fix: Disable Mem0 graph (requires Pro plan)\njq '.plugins.entries[\"openclaw-mem0\"].config.enableGraph = false' \\\n  ~/.openclaw/openclaw.json > /tmp/oc-fix.json && \\\n  mv /tmp/oc-fix.json ~/.openclaw/openclaw.json\necho \"✅ Mem0 graph disabled — autoCapture will now work on Free plan\"" }

/-- Rule `gateway-not-running` of src/known-issues.js. -/
def gatewayNotRunningRule : Rule :=
  { id := "gateway-not-running", severity := "critical",
    title := "Gateway is not running",
    description := "The OpenClaw gateway process is not running. This could be due to a config error, port conflict, or crash.",
    detect := fun diag =>
      let status := strOrEmpty diag.gatewayStatus
      if statusRunningRx.testI status then .ok (.bool false)
      else if jsEq diag.processExists (.bool true) && jsEq diag.portListening (.bool false) then
        .ok (.bool false)
      else
        .ok (.bool (statusDownRx.testI status ||
          (!diag.gatewayPid.truthy && !warningRx.testI status))),
    fix := "# Fix: Restart the gateway\n# Try standard restart first\nopenclaw gateway restart 2>/dev/null && sleep 3 && echo \"✅ Gateway restarted\" && exit 0\n\n# If that fails, try full launchctl cycle (macOS)\nPLIST=\"$HOME/Library/LaunchAgents/ai.openclaw.gateway.plist\"\nif [ -f \"$PLIST\" ]; then\n  echo \"Standard restart failed — trying launchctl full reset...\"\n  launchctl unload \"$PLIST\" 2>/dev/null || true\n  sleep 2\n  launchctl load \"$PLIST\"\n  sleep 3\nfi\n\n# Or systemd (Linux)\nif command -v systemctl &>/dev/null && systemctl list-unit-files openclaw-gateway.service &>/dev/null; then\n  sudo systemctl restart openclaw-gateway\nfi\n\n# Verify\nPORT=$(jq -r '.gateway.port // 18789' ~/.openclaw/openclaw.json 2>/dev/null || echo \"18789\")\ncurl -sf \"http://localhost:$PORT/health\" && echo \"✅ Gateway is healthy\" || echo \"❌ Still down — check: tail -30 ~/.openclaw/logs/gateway.err.log\"" }

/-- Rule `port-conflict` of src/known-issues.js. -/
def portConflictRule : Rule :=
  { id := "port-conflict", severity := "critical",
    title := "Port conflict (EADDRINUSE)",
    description := "The gateway port is already in use by another process. This prevents OpenClaw from starting.",
    detect := fun diag =>
      .ok (.bool (eaddrinuseRx.testI (strOrEmpty diag.logsErrors))),
    fix := "# Fix: Kill the process using the gateway port and restart\nPORT=$(jq -r '.gateway.port // 18789' ~/.openclaw/openclaw.json)\nPID=$(lsof -ti :$PORT 2>/dev/null)\nif [ -n \"$PID\" ]; then\n  echo \"Killing process $PID on port $PORT\"\n  kill $PID\n  sleep 1\nfi\nopenclaw gateway restart\necho \"✅ Port conflict resolved\"" }

/-- Rule `browser-port-binding` of src/known-issues.js. -/
def browserPortBindingRule : Rule :=
  { id := "browser-port-binding", severity := "high",
    title := "Browser control port not binding (18791)",
    description := "The browser control HTTP server on port 18791 won't start. This prevents browser automation from working.",
    detect := fun diag =>
      .ok (.bool (browserPortRx.testI (strOrEmpty diag.logsErrors))),
    fix := "# Fix: Kill stale browser processes and restart\npkill -f \"chrome.*--remote-debugging-port\" 2>/dev/null\nPID=$(lsof -ti :18791 2>/dev/null)\n[ -n \"$PID\" ] && kill $PID\nPID=$(lsof -ti :18800 2>/dev/null)\n[ -n \"$PID\" ] && kill $PID\nsleep 1\nopenclaw gateway restart\necho \"✅ Browser ports cleared\"" }

/-- Rule `no-hybrid-search` of src/known-issues.js. -/
def noHybridSearchRule : Rule :=
  { id := "no-hybrid-search", severity := "medium",
    title := "Hybrid search not enabled",
    description := "Your memory search is using basic vector search only. Enabling hybrid search (vector + BM25) significantly improves recall, especially for exact matches like wallet addresses, error codes, and names.",
    detect := fun diag => .ok (jsNot diag.hybridEnabled),
    fix := "# Fix: Enable hybrid search with recommended weights\njq '.agents.defaults.memorySearch.query.hybrid = \x7b\n  \"enabled\": true,\n  \"vectorWeight\": 0.6,\n  \"textWeight\": 0.4,\n  \"temporalDecay\": \x7b\"enabled\": true, \"halfLifeDays\": 14\x7d\n\x7d' ~/.openclaw/openclaw.json > /tmp/oc-fix.json && \\\n  mv /tmp/oc-fix.json ~/.openclaw/openclaw.json\necho \"✅ Hybrid search enabled (vector 0.6 + BM25 0.4 + temporal decay)\"" }

/-- Rule `no-context-pruning` of src/known-issues.js. -/
def noContextPruningRule : Rule :=
  { id := "no-context-pruning", severity := "medium",
    title := "No context pruning configured",
    description := "Without context pruning, old messages pile up and waste your context window. This makes conversations more expensive and can cause compactions to happen more often.",
    detect := fun diag => .ok (jsNot diag.contextPruning),
    fix := "# Fix: Enable context pruning (cache-ttl mode, 6 hour TTL)\njq '.agents.defaults.contextPruning = \x7b\n  \"mode\": \"cache-ttl\",\n  \"ttl\": \"6h\",\n  \"keepLastAssistants\": 3\n\x7d' ~/.openclaw/openclaw.json > /tmp/oc-fix.json && \\\n  mv /tmp/oc-fix.json ~/.openclaw/openclaw.json\necho \"✅ Context pruning enabled (6h TTL, keeps last 3 assistant messages)\"" }

/-- Rule `no-memory-flush` of src/known-issues.js. -/
def noMemoryFlushRule : Rule :=
  { id := "no-memory-flush", severity := "high",
    title := "Memory flush not enabled",
    description := "When your context window fills up and compaction happens, important information will be lost. Memory flush automatically saves a summary before compacting.",
    detect := fun diag => .ok (jsNot diag.memoryFlushEnabled),
    fix := "# Fix: Enable memory flush with smart prompt\njq '.agents.defaults.compaction = \x7b\n  \"mode\": \"safeguard\",\n  \"reserveTokensFloor\": 32000,\n  \"memoryFlush\": \x7b\n    \"enabled\": true,\n    \"softThresholdTokens\": 40000,\n    \"prompt\": \"Distill this session to memory/YYYY-MM-DD.md (use today'\"'\"'s date, APPEND only). Focus on: decisions made, state changes, lessons learned, blockers hit, tasks completed/started. Include specific details (IDs, URLs, amounts, error messages). If nothing worth saving, reply NO_REPLY.\"\n  \x7d\n\x7d' ~/.openclaw/openclaw.json > /tmp/oc-fix.json && \\\n  mv /tmp/oc-fix.json ~/.openclaw/openclaw.json\necho \"✅ Memory flush enabled — context compaction will save summaries\"" }

/-- Rule `no-soul` of src/known-issues.js. -/
def noSoulRule : Rule :=
  { id := "no-soul", severity := "low",
    title := "No SOUL.md found",
    description := "SOUL.md defines your agent's personality and behavior. Without it, your agent is generic and lacks character.",
    detect := fun diag => .ok (jsNot diag.hasSoul),
    fix := "# Fix: Create a basic SOUL.md\nWORKSPACE=$(jq -r '.agents.defaults.workspace // \"~/.openclaw/workspace\"' ~/.openclaw/openclaw.json)\ncat > \"$WORKSPACE/SOUL.md\" << 'SOUL'\n# SOUL.md — Who You Are\n\nYou are a helpful AI assistant. Be concise, direct, and genuinely useful.\nHave opinions. Be resourceful. Earn trust through competence.\n\nCustomize this file to give your agent personality!\nSOUL\necho \"✅ Created basic SOUL.md at $WORKSPACE/SOUL.md\"" }

/-- Rule `no-memory-files` of src/known-issues.js. -/
def noMemoryFilesRule : Rule :=
  { id := "no-memory-files", severity := "low",
    title := "No memory files found",
    description := "Your agent has no memory directory or daily note files. This means it can't persist knowledge across sessions.",
    detect := fun diag => .ok (.bool (diag.memoryFiles == some 0)),
    fix := "# Fix: Create memory directory\nWORKSPACE=$(jq -r '.agents.defaults.workspace // \"~/.openclaw/workspace\"' ~/.openclaw/openclaw.json)\nmkdir -p \"$WORKSPACE/memory\"\necho \"# Memory\" > \"$WORKSPACE/MEMORY.md\"\necho \"✅ Created memory directory at $WORKSPACE/memory/\"" }

/-- Rule `ggml-metal-crash` of src/known-issues.js. -/
def ggmlMetalCrashRule : Rule :=
  { id := "ggml-metal-crash", severity := "high",
    title := "GGML Metal GPU crash (macOS)",
    description := "QMD or other GGML-based tools crash with GGML_ASSERT on macOS with Apple Silicon. This is a known Metal GPU bug. Fix: use CPU mode.",
    detect := fun diag =>
      let logs := strOrEmpty diag.logsErrors
      let stderr := strOrEmpty diag.logsStderr
      .ok (.bool (ggmlRx.testI (logs ++ stderr))),
    fix := "# Fix: Disable Metal GPU for GGML (use CPU instead)\n# Add to ~/.zshrc or ~/.bashrc\necho 'export GGML_NO_METAL=1' >> ~/.zshrc\n# Also add to OpenClaw env\njq '.env.GGML_NO_METAL = \"1\"' ~/.openclaw/openclaw.json > /tmp/oc-fix.json && \\\n  mv /tmp/oc-fix.json ~/.openclaw/openclaw.json\necho \"✅ GGML Metal disabled — CPU mode active (fixes QMD crashes)\"" }

/-- Rule `orphan-tool-calls` of src/known-issues.js. -/
def orphanToolCallsRule : Rule :=
  { id := "orphan-tool-calls", severity := "medium",
    title := "Orphan tool_calls in session history",
    description := "Session JSONL files contain tool_call entries without matching tool_result entries. This causes \"tool_call_id is not found\" errors. Known OpenClaw bug #11187.",
    detect := fun diag =>
      .ok (.bool (orphanRx.testI (strOrEmpty diag.logsErrors))),
    fix := "# Fix: This is a known OpenClaw bug (#11187).\n# Workaround: clear the affected session file\n# Find session files with orphan tool calls:\nfind ~/.openclaw/sessions -name \"*.jsonl\" -exec grep -l \"tool_call\" \x7b\x7d \\; 2>/dev/null | while read f; do\n  echo \"Checking: $f\"\ndone\necho \"⚠️  If issues persist, try: openclaw gateway restart\"\necho \"This bug is tracked at: https://github.com/openclaw/openclaw/issues/11187\"" }

/-- Rule `duplicate-plugin` of src/known-issues.js. -/
def duplicatePlugRule : Rule :=
  { id := "duplicate-plugin", severity := "medium",
    title := "Duplicate plugin detected",
    description := "A plugin is registered multiple times in your config. The later entry overrides the earlier one, which may cause unexpected behavior.",
    detect := fun diag =>
      .ok (.bool (duplicatePluginRx.testI (strOrEmpty diag.gatewayStatus))),
    fix := "# Fix: Remove duplicate plugin entries from config\necho \"⚠️  Check your openclaw.json for duplicate plugin entries.\"\necho \"Look for plugins listed twice in plugins.entries\"\necho \"Remove the duplicate and keep the one with your preferred config.\"\njq '.plugins.entries | keys[]' ~/.openclaw/openclaw.json 2>/dev/null | sort | uniq -d | while read dup; do\n  echo \"  Duplicate found: $dup\"\ndone\necho \"Edit ~/.openclaw/openclaw.json to remove duplicates\"" }

/-- Rule `state-dir-migration` of src/known-issues.js. -/
def stateDirMigrationRule : Rule :=
  { id := "state-dir-migration", severity := "low",
    title := "State directory migration skipped",
    description := "OpenClaw tried to migrate your state directory but the target already exists. This is usually harmless but may indicate a leftover from a previous installation.",
    detect := fun diag =>
      .ok (.bool (stateDirRx.testI (strOrEmpty diag.gatewayStatus))),
    fix := "# Info: State directory migration was skipped\n# This is usually harmless — your ~/.openclaw directory already exists.\n# If you have issues, check for leftover files from a previous install:\nls -la ~/.openclaw/ 2>/dev/null\necho \"✅ No action needed unless you're experiencing config conflicts\"" }

/-- Rule `large-workspace-files` of src/known-issues.js. -/
def largeWorkspaceFilesRule : Rule :=
  { id := "large-workspace-files", severity := "medium",
    title := "Large workspace loaded every session",
    description := "Your workspace has many markdown files that may be loaded into context every turn, wasting tokens. Consider using progressive context loading with a small index file.",
    detect := fun diag =>
      .ok (.bool (decide (diag.mdFiles.getD 0 > 100) && !diag.hasSoul.truthy)),
    fix := "# Fix: Create a MEMORY.md index to avoid loading everything\nWORKSPACE=$(jq -r '.agents.defaults.workspace // \"~/.openclaw/workspace\"' ~/.openclaw/openclaw.json)\necho \"Your workspace has many .md files. Consider:\"\necho \"1. Create a small MEMORY.md index that points to detailed files\"\necho \"2. Move old/large files to an archive/ subdirectory\"\necho \"3. Use .contextignore to exclude files from context loading\"\necho \"\"\necho \"Files over 10KB:\"\nfind \"$WORKSPACE\" -name \"*.md\" -size +10k -not -path \"*/node_modules/*\" 2>/dev/null | head -10" }

/-- Rule `no-compaction-config` of src/known-issues.js. -/
def noCompactionConfigRule : Rule :=
  { id := "no-compaction-config", severity := "medium",
    title := "No compaction safeguards",
    description := "Your context compaction has no reserveTokensFloor configured. When the context window fills up, important context may be lost without warning.",
    detect := fun diag =>
      .ok (.bool (!diag.compactionReserveTokensFloor.truthy && !diag.compactionMode.truthy)),
    fix := "# Fix: Set compaction safeguards\njq '.agents.defaults.compaction.mode = \"safeguard\" |\n    .agents.defaults.compaction.reserveTokensFloor = 32000' \\\n  ~/.openclaw/openclaw.json > /tmp/oc-fix.json && \\\n  mv /tmp/oc-fix.json ~/.openclaw/openclaw.json\necho \"✅ Compaction safeguard enabled (32K token reserve)\"" }

/-- Rule `missing-agents-md` of src/known-issues.js. -/
def missingAgentsMdRule : Rule :=
  { id := "missing-agents-md", severity := "low",
    title := "No AGENTS.md found",
    description := "AGENTS.md provides instructions for your agent on how to use the workspace, handle memory, and behave in different contexts. Without it, your agent lacks operational guidance.",
    detect := fun diag => .ok (jsNot diag.hasAgents),
    fix := "# Fix: Create a basic AGENTS.md\nWORKSPACE=$(jq -r '.agents.defaults.workspace // \"~/.openclaw/workspace\"' ~/.openclaw/openclaw.json)\ncat > \"$WORKSPACE/AGENTS.md\" << 'EOF'\n# AGENTS.md - Workspace Instructions\n\n## Every Session\n1. Read SOUL.md — this is who you are\n2. Read memory/ files for recent context\n\n## Memory\n- Daily notes: memory/YYYY-MM-DD.md\n- Long-term: MEMORY.md\n\n## Safety\n- Don't run destructive commands without asking\n- trash > rm\nEOF\necho \"✅ Created basic AGENTS.md at $WORKSPACE/AGENTS.md\"" }

/-- Rule `heartbeat-no-model-override` of src/known-issues.js. Its predicate is
the JavaScript expression `hb?.every && !hb?.model`, whose value is the falsy
non-boolean `hb?.every` whenever the heartbeat interval is absent. -/
def heartbeatNoModelOverrideRule : Rule :=
  { id := "heartbeat-no-model-override", severity := "low",
    title := "Heartbeat using expensive model",
    description := "Your heartbeat is not configured with a cheaper model override. Heartbeats run frequently and don't need the most powerful model — using a smaller model saves significant token costs.",
    detect := fun diag => .ok (jsAnd diag.heartbeatEvery (jsNot diag.heartbeatModel)),
    fix := "# Fix: Set a cheaper model for heartbeats\njq '.agents.defaults.heartbeat.model = \"anthropic/claude-sonnet-4-6\"' \\\n  ~/.openclaw/openclaw.json > /tmp/oc-fix.json && \\\n  mv /tmp/oc-fix.json ~/.openclaw/openclaw.json\necho \"✅ Heartbeat model set to Sonnet (cheaper than default)\"" }

/-- Rule `session-transcript-not-indexed` of src/known-issues.js. -/
def sessionTranscriptNotIndexedRule : Rule :=
  { id := "session-transcript-not-indexed", severity := "low",
    title := "Session transcripts not indexed for search",
    description := "Enabling session transcript indexing improves memory recall by making past conversation content searchable.",
    detect := fun diag => .ok (jsNot diag.sessionTranscriptsEnabled),
    fix := "# Fix: Enable session transcript indexing\njq '.agents.defaults.memorySearch.sessionTranscripts.enabled = true' \\\n  ~/.openclaw/openclaw.json > /tmp/oc-fix.json && \\\n  mv /tmp/oc-fix.json ~/.openclaw/openclaw.json\necho \"✅ Session transcript indexing enabled\"" }

/-- Rule `high-token-usage` of src/known-issues.js; the `&&`-chain groups to
the left, so the value is a falsy non-boolean when `heartbeat?.every` is
absent while pruning is also absent. -/
def highTokenUsageRule : Rule :=
  { id := "high-token-usage", severity := "medium",
    title := "High token consumption detected",
    description := "Your configuration may be causing excessive token usage. Common causes: no context pruning, large workspace files being loaded every turn, or aggressive heartbeat intervals.",
    detect := fun diag =>
      .ok (jsAnd (jsAnd (jsAnd (jsNot diag.contextPruning) diag.heartbeatEvery)
        (.bool (heartbeatEveryRx.matchesFull (jsToString diag.heartbeatEvery).data)))
        (.bool (parseIntLt diag.heartbeatEvery 30))),
    fix := "# Fix: Reduce token usage\n# 1. Enable context pruning (see fix above)\n# 2. Increase heartbeat interval to 30+ minutes\njq '.agents.defaults.heartbeat.every = \"30m\"' ~/.openclaw/openclaw.json > /tmp/oc-fix.json && \\\n  mv /tmp/oc-fix.json ~/.openclaw/openclaw.json\n# 3. Use a cheaper model for heartbeats\njq '.agents.defaults.heartbeat.model = \"anthropic/claude-sonnet-4-6\"' ~/.openclaw/openclaw.json > /tmp/oc-fix.json && \\\n  mv /tmp/oc-fix.json ~/.openclaw/openclaw.json\necho \"✅ Token usage optimized (30min heartbeat + Sonnet model)\"" }

/-- Rule `auto-update-restart-loop` of src/known-issues.js. -/
def autoUpdateRestartLoopRule : Rule :=
  { id := "auto-update-restart-loop", severity := "critical",
    title := "Auto-update causing gateway restart loop",
    description := "When update.auto.enabled is true, the gateway detects a new version on boot, triggers a config reload, SIGTERMs itself, then repeats on restart — creating a crash loop. The OS service manager (launchd/systemd) backs off after rapid failures, leaving the gateway dead for hours.",
    detect := fun diag =>
      let autoUpdate := jsEq diag.updateAutoEnabled (.bool true)
      let logs := strOrEmpty diag.logsErrors ++ strOrEmpty diag.logsGatewayLog
      let sigtermCount := sigtermReceivedRx.countI logs
      let restartCount := listeningPidRx.countI logs
      .ok (.bool (autoUpdate && (decide (sigtermCount ≥ 2) || decide (restartCount ≥ 3)))),
    fix := "# Fix: Disable auto-update (causes restart loops with current OpenClaw versions)\ncp ~/.openclaw/openclaw.json ~/.openclaw/openclaw.json.bak.$(date +%s)\njq '.update.auto.enabled = false' ~/.openclaw/openclaw.json > /tmp/oc-fix.json && \\\n  mv /tmp/oc-fix.json ~/.openclaw/openclaw.json\necho \"✅ Auto-update disabled — use 'openclaw update' manually when ready\"\necho \"ℹ️  Restart gateway: openclaw gateway restart\"" }

/-- Rule `auto-update-enabled-warning` of src/known-issues.js. -/
def autoUpdateEnabledWarningRule : Rule :=
  { id := "auto-update-enabled-warning", severity := "medium",
    title := "Auto-update is enabled (risk of restart loops)",
    description := "Auto-update is enabled in your config. This can cause the gateway to restart unexpectedly when a new version is detected, especially combined with plugin config reloads. Recommend manual updates instead.",
    detect := fun diag => .ok (.bool (jsEq diag.updateAutoEnabled (.bool true))),
    fix := "# Fix: Disable auto-update for stability\ncp ~/.openclaw/openclaw.json ~/.openclaw/openclaw.json.bak.$(date +%s)\njq '.update.auto.enabled = false' ~/.openclaw/openclaw.json > /tmp/oc-fix.json && \\\n  mv /tmp/oc-fix.json ~/.openclaw/openclaw.json\necho \"✅ Auto-update disabled — run 'openclaw update' manually\"" }

/-- Rule `config-reload-sigterm-cascade` of src/known-issues.js. -/
def configReloadSigtermCascadeRule : Rule :=
  { id := "config-reload-sigterm-cascade", severity := "high",
    title := "Config reload triggering gateway restarts",
    description := "Plugin re-registration (especially Mem0) modifies config fields like plugins.installs.*.resolvedAt, triggering config reload evaluations. If the reload causes a gateway restart (SIGTERM), this cascades — especially when combined with auto-update.",
    detect := fun diag =>
      let logs := strOrEmpty diag.logsErrors ++ strOrEmpty diag.logsGatewayLog
      let reloadAndSigterm := reloadSigtermRx.testI logs
      let multipleReloads := decide (reloadRx.countI logs ≥ 3)
      .ok (.bool (reloadAndSigterm || multipleReloads)),
    fix := "# Info: Config reload cascade detected\n# This happens when plugins modify config fields during registration,\n# triggering reload → restart → re-register → reload cycles.\n#\n# Step 1: Disable auto-update if enabled (primary trigger)\njq '.update.auto.enabled = false' ~/.openclaw/openclaw.json > /tmp/oc-fix.json && \\\n  mv /tmp/oc-fix.json ~/.openclaw/openclaw.json\n#\n# Step 2: Restart gateway cleanly\nopenclaw gateway restart\necho \"✅ Config reload cascade mitigated\"\necho \"ℹ️  If this recurs, check which plugin is modifying config on startup\"" }

/-- Rule `gateway-extended-downtime` of src/known-issues.js; comparisons with
absent fields follow the JavaScript NaN rule and yield false. -/
def gatewayExtendedDowntimeRule : Rule :=
  { id := "gateway-extended-downtime", severity := "critical",
    title := "Gateway was down for extended period",
    description := "After a crash loop, the OS service manager (launchd on macOS, systemd on Linux) applies exponential backoff on restarts. This can leave the gateway dead for hours without the user knowing. No heartbeats, cron jobs, or monitoring runs during downtime.",
    detect := fun diag =>
      if optGt diag.serviceRuns 2 && optLt diag.serviceUptimeSeconds 300 then .ok (.bool true)
      else if optGt diag.serviceNRestarts 0 && optLt diag.serviceUptimeSeconds 300 then .ok (.bool true)
      else .ok (.bool false),
    fix := "# Fix: Gateway was down — restart and verify\nopenclaw gateway restart\nsleep 3\nopenclaw gateway status\necho \"\"\necho \"⚠️  Check what caused the crash loop:\"\necho \"   tail -50 ~/.openclaw/logs/gateway.err.log\"\necho \"\"\necho \"Common causes:\"\necho \"  - Auto-update restart loop (disable: jq '.update.auto.enabled = false' ~/.openclaw/openclaw.json)\"\necho \"  - Port conflict (check: lsof -i :18789)\"\necho \"  - Plugin crash on startup (check error logs)\"" }

/-- Rule `browser-relay-handshake-spam` of src/known-issues.js. -/
def browserRelayHandshakeSpamRule : Rule :=
  { id := "browser-relay-handshake-spam", severity := "medium",
    title := "Browser Relay extension spamming invalid handshakes",
    description := "The OpenClaw Browser Relay Chrome extension is repeatedly trying to connect with invalid WebSocket handshakes (~every 2 seconds). This bloats gateway.err.log to 200MB+ and makes it hard to find real errors.",
    detect := fun diag =>
      let logs := strOrElse diag.logsStderr diag.logsErrors
      .ok (.bool (decide (handshakeRx.countI logs ≥ 5))),
    fix := "# Fix: Stop Browser Relay handshake spam\necho \"The OpenClaw Browser Relay Chrome extension is failing to authenticate.\"\necho \"\"\necho \"Options:\"\necho \"  1. Configure the extension with your gateway token\"\necho \"     - Click the extension icon → Settings → paste your token\"\necho \"     - Find token: jq -r '.gateway.auth.token' ~/.openclaw/openclaw.json\"\necho \"\"\necho \"  2. Remove/disable the extension if you don't need it\"\necho \"     - Chrome → Extensions → find 'OpenClaw Browser Relay' → Remove\"\necho \"\"\necho \"Truncate the bloated error log:\"\ntail -1000 ~/.openclaw/logs/gateway.err.log > /tmp/gw-err-trimmed.log && \\\n  mv /tmp/gw-err-trimmed.log ~/.openclaw/logs/gateway.err.log\necho \"✅ Error log truncated (kept last 1000 lines)\"" }

/-- Rule `matrix-sync-timeout-spam` of src/known-issues.js. -/
def matrixSyncTimeoutSpamRule : Rule :=
  { id := "matrix-sync-timeout-spam", severity := "low",
    title := "Matrix sync timeouts spamming error log",
    description := "Matrix provider sync calls are failing with ESOCKETTIMEDOUT repeatedly. Usually caused by network issues or Matrix homeserver downtime. Not critical but clutters logs.",
    detect := fun diag =>
      let logs := strOrElse diag.logsStderr diag.logsErrors
      .ok (.bool (decide (esocketRx.countI logs ≥ 3))),
    fix := "# Info: Matrix sync timeouts detected\necho \"Matrix homeserver sync is timing out repeatedly.\"\necho \"\"\necho \"This is usually transient. Check:\"\necho \"  - Network connectivity: curl -s https://matrix.org/_matrix/client/versions\"\necho \"  - Matrix status: https://status.matrix.org\"\necho \"\"\necho \"If you don't use Matrix, disable it:\"\necho \"  jq '.channels.matrix.enabled = false' ~/.openclaw/openclaw.json > /tmp/oc-fix.json && mv /tmp/oc-fix.json ~/.openclaw/openclaw.json\"" }

/-- Rule `oversized-error-log` of src/known-issues.js. -/
def oversizedErrorLogRule : Rule :=
  { id := "oversized-error-log", severity := "medium",
    title := "Error log is very large",
    description := "gateway.err.log has grown very large (50MB+), likely due to repeated errors like browser relay spam or Matrix timeouts. This wastes disk space and makes log analysis slow.",
    detect := fun diag => .ok (.bool (decide (diag.errLogSizeMB.getD 0 > 50))),
    fix := "# Fix: Truncate oversized error log\necho \"Truncating gateway.err.log (keeping last 5000 lines)...\"\ntail -5000 ~/.openclaw/logs/gateway.err.log > /tmp/gw-trimmed.log && \\\n  mv /tmp/gw-trimmed.log ~/.openclaw/logs/gateway.err.log\necho \"✅ Error log truncated\"\necho \"\"\necho \"To prevent this, identify the source of log spam:\"\necho \"  tail -100 ~/.openclaw/logs/gateway.err.log | sort | uniq -c | sort -rn | head -5\"\necho \"\"\necho \"Common causes: Browser Relay handshake spam, Matrix sync timeouts\"" }

/-- Rule `launchd-corrupted-state` of src/known-issues.js. -/
def launchdCorruptedStateRule : Rule :=
  { id := "launchd-corrupted-state", severity := "critical",
    title := "LaunchAgent in corrupted state (SIGTERM crash loop)",
    description := "The gateway received SIGTERM (exit code -15) and the LaunchAgent entered a corrupted load state. Simple restart commands fail with I/O errors. Requires a full unload → load cycle via launchctl to recover.",
    detect := fun diag =>
      let serviceState := strOrEmpty diag.serviceState
      let exitCode := jsOr diag.serviceExitCode (.str "")
      let manager := strOrEmpty diag.serviceManager
      let logs := strOrEmpty diag.logsErrors ++ strOrEmpty diag.logsStderr
      let sigtermInLogs := decide (diag.sigtermCount.getD 0 ≥ 1)
      if manager == "launchd" && (serviceState == "sigterm" || jsEq exitCode (.str "-15")) then
        .ok (.bool true)
      else if manager == "launchd" && !diag.processExists.truthy && sigtermInLogs then
        .ok (.bool true)
      else if launchctlRx.testI logs then .ok (.bool true)
      else .ok (.bool false),
    fix := "# Fix: LaunchAgent corrupted state — full unload + reload cycle\necho \"Performing full LaunchAgent reset...\"\necho \"\"\n\nPLIST=\"$HOME/Library/LaunchAgents/ai.openclaw.gateway.plist\"\n\nif [ ! -f \"$PLIST\" ]; then\n  echo \"❌ LaunchAgent plist not found at $PLIST\"\n  echo \"Try running: openclaw gateway install\"\n  exit 1\nfi\n\necho \"Step 1: Unload LaunchAgent (ignore errors)...\"\nlaunchctl unload \"$PLIST\" 2>/dev/null || true\nsleep 2\n\necho \"Step 2: Kill any zombie gateway processes...\"\npkill -f \"openclaw.*gateway\" 2>/dev/null || true\nsleep 1\n\necho \"Step 3: Load LaunchAgent fresh...\"\nlaunchctl load \"$PLIST\"\nsleep 3\n\necho \"Step 4: Verify gateway is up...\"\nif curl -sf http://localhost:18789/health &>/dev/null; then\n  echo \"✅ Gateway is up and healthy!\"\nelse\n  echo \"⚠️  Gateway did not start within 3 seconds. Check logs:\"\n  echo \"   tail -30 ~/.openclaw/logs/gateway.err.log\"\n  echo \"   tail -30 ~/.openclaw/logs/gateway.log\"\nfi" }

/-- Rule `gateway-zombie` of src/known-issues.js: flags a process that exists
while the port is not listening (`portListening` strictly equal to `false` or
to the string `'false'`). -/
def gatewayZombieRule : Rule :=
  { id := "gateway-zombie", severity := "critical",
    title := "Zombie gateway process (PID exists but not listening)",
    description := "A gateway process exists in the process list but is NOT listening on the expected port. This typically happens after a SIGTERM or crash where the process is still visible but has already shut down internally. A simple restart won't work — the zombie must be killed first.",
    detect := fun diag =>
      let processExists := jsEq diag.processExists (.bool true)
      let portListening := jsEq diag.portListening (.bool false) || jsEq diag.portListening (.str "false")
      .ok (.bool (processExists && portListening)),
    fix := "# Fix: Kill zombie gateway process and restart cleanly\necho \"Killing zombie gateway process...\"\npkill -9 -f \"openclaw.*gateway\" 2>/dev/null || true\nsleep 2\n\necho \"Clearing any stale port locks...\"\nPORT=$(jq -r '.gateway.port // 18789' ~/.openclaw/openclaw.json 2>/dev/null || echo \"18789\")\nPID=$(lsof -ti :$PORT 2>/dev/null)\n[ -n \"$PID\" ] && kill -9 \"$PID\" 2>/dev/null || true\nsleep 1\n\necho \"Restarting gateway...\"\nif [ -f \"$HOME/Library/LaunchAgents/ai.openclaw.gateway.plist\" ]; then\n  # macOS: use launchctl for proper service management\n  launchctl unload \"$HOME/Library/LaunchAgents/ai.openclaw.gateway.plist\" 2>/dev/null || true\n  sleep 1\n  launchctl load \"$HOME/Library/LaunchAgents/ai.openclaw.gateway.plist\"\nelif command -v systemctl &>/dev/null; then\n  systemctl restart openclaw-gateway\nelse\n  openclaw gateway restart\nfi\n\nsleep 3\n\nif curl -sf http://localhost:$PORT/health &>/dev/null; then\n  echo \"✅ Gateway is now running and healthy!\"\nelse\n  echo \"⚠️  Gateway not responding. Check:\"\n  echo \"   tail -20 ~/.openclaw/logs/gateway.err.log\"\nfi" }

/-- Rule `gateway-not-listening` of src/known-issues.js: fires only when the
`portListening` field is present, not listening, and the process is absent
(the zombie case is left to `gateway-zombie`). -/
def gatewayNotListeningRule : Rule :=
  { id := "gateway-not-listening", severity := "critical",
    title := "Gateway port not listening",
    description := "The gateway is not listening on its configured port, even though the process may exist. This means no clients can connect — no heartbeats, no cron jobs, no channel messages. This can happen after a crash, SIGTERM, or config error.",
    detect := fun diag =>
      let portListening := diag.portListening
      if portListening == JsVal.undef then .ok (.bool false)
      else
        let portNotListening := jsEq portListening (.bool false) || jsEq portListening (.str "false")
        let processNotExists := !diag.processExists.truthy || jsEq diag.processExists (.str "false")
        .ok (.bool (portNotListening && processNotExists)),
    fix := "# Fix: Gateway not listening — restart via service manager\necho \"Gateway is not listening. Attempting restart...\"\nPORT=$(jq -r '.gateway.port // 18789' ~/.openclaw/openclaw.json 2>/dev/null || echo \"18789\")\n\nif [ -f \"$HOME/Library/LaunchAgents/ai.openclaw.gateway.plist\" ]; then\n  echo \"Using launchctl (macOS)...\"\n  launchctl unload \"$HOME/Library/LaunchAgents/ai.openclaw.gateway.plist\" 2>/dev/null || true\n  sleep 1\n  launchctl load \"$HOME/Library/LaunchAgents/ai.openclaw.gateway.plist\"\nelif command -v systemctl &>/dev/null && systemctl list-unit-files openclaw-gateway.service &>/dev/null; then\n  echo \"Using systemctl (Linux)...\"\n  sudo systemctl restart openclaw-gateway\nelse\n  echo \"Using openclaw CLI...\"\n  openclaw gateway restart\nfi\n\nsleep 4\nif curl -sf \"http://localhost:$PORT/health\" &>/dev/null; then\n  echo \"✅ Gateway is now running!\"\nelse\n  echo \"❌ Gateway still not responding. Check logs:\"\n  echo \"   tail -30 ~/.openclaw/logs/gateway.err.log\"\nfi" }

/-- Rule `gateway-watchdog-missing` of src/known-issues.js. -/
def gatewayWatchdogMissingRule : Rule :=
  { id := "gateway-watchdog-missing", severity := "high",
    title := "No gateway watchdog installed",
    description := "Your gateway has crashed before but there's no automatic watchdog to detect and recover from future crashes. The OS service manager uses exponential backoff on repeated failures, meaning the gateway can stay dead for hours without you knowing. A watchdog checks the health endpoint every 2 minutes and restarts if it's down.",
    detect := fun diag =>
      let manager := strOrEmpty diag.serviceManager
      let sigtermCount := diag.sigtermCount.getD 0
      let serviceState := strOrEmpty diag.serviceState
      let hasCrashed := decide (sigtermCount ≥ 1) || serviceState == "sigterm" || serviceState == "crashed"
      let hasPlist := manager == "launchd"
      .ok (.bool (hasPlist && hasCrashed)),
    fix := "# Fix: Install a gateway watchdog LaunchAgent\necho \"Installing gateway health watchdog...\"\nWATCHDOG_SCRIPT=\"$HOME/.openclaw/scripts/gateway-watchdog.sh\"\nWATCHDOG_PLIST=\"$HOME/Library/LaunchAgents/ai.openclaw.gateway-watchdog.plist\"\nPORT=$(jq -r '.gateway.port // 18789' ~/.openclaw/openclaw.json 2>/dev/null || echo \"18789\")\n\nmkdir -p \"$HOME/.openclaw/scripts\"\n\n# Create watchdog script\ncat > \"$WATCHDOG_SCRIPT\" << 'WATCHDOG'\n#!/usr/bin/env bash\n# OpenClaw Gateway Watchdog\n# Checks health endpoint every 2 minutes, restarts if down\n\nPORT=$(jq -r '.gateway.port // 18789' ~/.openclaw/openclaw.json 2>/dev/null || echo \"18789\")\nPLIST=\"$HOME/Library/LaunchAgents/ai.openclaw.gateway.plist\"\nLOG=\"$HOME/.openclaw/logs/watchdog.log\"\n\nif ! curl -sf \"http://localhost:$PORT/health\" &>/dev/null; then\n  echo \"[$(date -u +%Y-%m-%dT%H:%M:%SZ)] Gateway DOWN — attempting recovery\" >> \"$LOG\"\n  launchctl unload \"$PLIST\" 2>/dev/null || true\n  sleep 2\n  pkill -f \"openclaw.*gateway\" 2>/dev/null || true\n  sleep 1\n  launchctl load \"$PLIST\"\n  sleep 5\n  if curl -sf \"http://localhost:$PORT/health\" &>/dev/null; then\n    echo \"[$(date -u +%Y-%m-%dT%H:%M:%SZ)] Gateway RECOVERED\" >> \"$LOG\"\n  else\n    echo \"[$(date -u +%Y-%m-%dT%H:%M:%SZ)] Gateway FAILED TO RECOVER — manual intervention needed\" >> \"$LOG\"\n  fi\nfi\nWATCHDOG\nchmod +x \"$WATCHDOG_SCRIPT\"\nsed -i \"s|\\$HOME|$HOME|g\" \"$WATCHDOG_SCRIPT\"\n\n# Create LaunchAgent plist (runs every 2 minutes)\ncat > \"$WATCHDOG_PLIST\" << EOF\n<?xml version=\"1.0\" encoding=\"UTF-8\"?>\n<!DOCTYPE plist PUBLIC \"-//Apple//DTD PLIST 1.0//EN\" \"http://www.apple.com/DTDs/PropertyList-1.0.dtd\">\n<plist version=\"1.0\">\n<dict>\n  <key>Label</key>\n  <string>ai.openclaw.gateway-watchdog</string>\n  <key>ProgramArguments</key>\n  <array>\n    <string>/bin/bash</string>\n    <string>$WATCHDOG_SCRIPT</string>\n  </array>\n  <key>StartInterval</key>\n  <integer>120</integer>\n  <key>RunAtLoad</key>\n  <false/>\n  <key>StandardOutPath</key>\n  <string>$HOME/.openclaw/logs/watchdog.log</string>\n  <key>StandardErrorPath</key>\n  <string>$HOME/.openclaw/logs/watchdog.err.log</string>\n</dict>\n</plist>\nEOF\n\nlaunchctl unload \"$WATCHDOG_PLIST\" 2>/dev/null || true\nlaunchctl load \"$WATCHDOG_PLIST\"\necho \"✅ Watchdog installed — checks gateway every 2 minutes\"\necho \"   Log: ~/.openclaw/logs/watchdog.log\"\necho \"   Disable: launchctl unload $WATCHDOG_PLIST\"" }

/-- The rule registry KNOWN_ISSUES of src/known-issues.js, in declaration
order. -/
def KNOWN_ISSUES : List Rule :=
  [mem0GraphFreeRule, gatewayNotRunningRule, portConflictRule, browserPortBindingRule,
   noHybridSearchRule, noContextPruningRule, noMemoryFlushRule, noSoulRule,
   noMemoryFilesRule, ggmlMetalCrashRule, orphanToolCallsRule, duplicatePlugRule,
   stateDirMigrationRule, largeWorkspaceFilesRule, noCompactionConfigRule,
   missingAgentsMdRule, heartbeatNoModelOverrideRule, sessionTranscriptNotIndexedRule,
   highTokenUsageRule, autoUpdateRestartLoopRule, autoUpdateEnabledWarningRule,
   configReloadSigtermCascadeRule, gatewayExtendedDowntimeRule,
   browserRelayHandshakeSpamRule, matrixSyncTimeoutSpamRule, oversizedErrorLogRule,
   launchdCorruptedStateRule, gatewayZombieRule, gatewayNotListeningRule,
   gatewayWatchdogMissingRule]

/-- An Issue, the per-snapshot output shape produced for each matched rule by
detectIssues. -/
structure Issue where
  id : String
  severity : String
  title : String
  description : String
  fix : String
deriving DecidableEq, Repr

/-- Projection of a rule to its Issue shape (the `.map` of detectIssues). -/
def toIssue (r : Rule) : Issue :=
  { id := r.id, severity := r.severity, title := r.title,
    description := r.description, fix := r.fix }

/-- Whether a rule passes the filter of detectIssues on a snapshot: the caught
predicate value must be truthy; a thrown error counts as false. -/
def matched (r : Rule) (s : Snapshot) : Bool :=
  match r.detect s with
  | .ok v => v.truthy
  | .error _ => false

/-- Detection over an explicit rule list (the body of detectIssues; the source
function is fixed to the KNOWN_ISSUES registry). -/
def detectIssuesOn (rules : List Rule) (s : Snapshot) : List Issue :=
  (rules.filter (fun r => matched r s)).map toIssue

/-- The detectIssues function of src/known-issues.js. -/
def detectIssues (s : Snapshot) : List Issue := detectIssuesOn KNOWN_ISSUES s

/-- Substring test used for the composer's restart trigger
(`issue.fix.includes('openclaw.json')`). -/
def strContains (hay needle : String) : Bool :=
  (List.range (hay.data.length + 1)).any
    (fun i => needle.data.isPrefixOf (hay.data.drop i))

/-- Characters of the `\s` class as used by extractSection's pattern. -/
def isJsWs (c : Char) : Bool :=
  c = ' ' || c = '\t' || c = '\n' || c = '\r' || c = '\x0b' || c = '\x0c'

/-- Characters of the `[:\s]` class of extractSection's pattern. -/
def isColonWs (c : Char) : Bool := c = ':' || isJsWs c

/-- Attempt of extractSection's pattern at one boundary position `b` of the
lowercased subject `lcs` (a boundary is the string start or the position right
after a newline): skip an optional run of `#` plus whitespace, require the
keyword, then a `[:\s]*` run ending at a newline (greedy, so the last newline
of the run), and return the start of the lazy capture together with its length
(shortest stretch ending at `\n#` or at the end of the subject). -/
def esTryAt (lcs : List Char) (b : Nat) (kw : List Char) : Option (Nat × Nat) :=
  let afterHash :=
    match lcs.drop b with
    | '#' :: _ =>
        let hs := (lcs.drop b).takeWhile (fun c => c = '#')
        let ws := (lcs.drop (b + hs.length)).takeWhile isJsWs
        b + hs.length + ws.length
    | _ => b
  if kw.isPrefixOf (lcs.drop afterHash) then
    let q := afterHash + kw.length
    let run := (lcs.drop q).takeWhile isColonWs
    match (List.range run.length).reverse.find? (fun j => (run.drop j).take 1 == ['\n']) with
    | none => none
    | some j =>
        let cStart := q + j + 1
        let stop := (List.range (lcs.length - cStart + 1)).find? (fun t =>
          cStart + t == lcs.length ||
          ((lcs.drop (cStart + t)).take 2).take 1 == ['\n'] &&
            (((lcs.drop (cStart + t)).drop 1).take 1 == ['#']))
        match stop with
        | some t => some (cStart, t)
        | none => none
  else none

/-- Fueled scan over boundary positions for extractSection's leftmost match. -/
def esScan (lcs : List Char) (kw : List Char) : Nat → Nat → Option (Nat × Nat)
  | _, 0 => none
  | b, fuel + 1 =>
      if b > lcs.length then none
      else if b == 0 || (lcs.drop (b - 1)).take 1 == ['\n'] then
        match esTryAt lcs b kw with
        | some r => some r
        | none => esScan lcs kw (b + 1) fuel
      else esScan lcs kw (b + 1) fuel

/-- The extractSection helper of src/routes/diagnose.js: pull the body of a
markdown-ish section introduced by the keyword (case-insensitively), trimmed;
empty string when the pattern does not match. -/
def extractSection (text keyword : String) : String :=
  let lcs := (lowerStr text).data
  match esScan lcs (lowerStr keyword).data 0 (lcs.length + 2) with
  | some (cs, cl) => (String.mk ((text.data.drop cs).take cl)).trim
  | none => ""

/-- JavaScript `a || b` on strings (empty string is falsy). -/
def strFalsyOr (a b : String) : String := if a = "" then b else a

/-- Result shape of analyzeWithAI. -/
structure AIAnalysis where
  summary : String
  insights : String
  additionalIssues : List String
  additionalFixes : String
  raw : Option String
deriving DecidableEq, Repr

/-- The analyzeWithAI function of src/routes/diagnose.js. The outbound call is
modelled by its outcome: `Except.error e` stands for any throw out of `callAI`
or of the response handling (network failure, timeout, non-success status with
its `AI API <status>` message, malformed JSON), carrying the JavaScript error
message; `Except.ok response` carries the extracted message content (the
`data.choices?.[0]?.message?.content || ''` value). The catch handler turns
every thrown error into the fallback shape, so the function is total: no error
propagates to the pipeline caller. -/
def analyzeWithAI (apiKey : Option String) (knownIssues : List Issue)
    (callOutcome : Except String String) : AIAnalysis :=
  match apiKey with
  | none =>
      { summary := "Pattern matching found " ++ toString knownIssues.length ++
          " issue(s). AI analysis unavailable (no API key configured).",
        insights := "", additionalIssues := [], additionalFixes := "", raw := none }
  | some _ =>
      match callOutcome with
      | .error e =>
          { summary := "Pattern matching found " ++ toString knownIssues.length ++
              " issue(s). AI analysis unavailable (" ++ e ++ ").",
            insights := "", additionalIssues := [], additionalFixes := "", raw := none }
      | .ok response =>
          { summary := strFalsyOr (extractSection response "summary")
              (String.mk (response.data.take 500)),
            insights := extractSection response "optimization",
            additionalIssues := [],
            additionalFixes := extractSection response "fix",
            raw := some response }

/-- The `lines` array built by generateFixScript of src/routes/diagnose.js, in
push order. `now` is the value of `new Date().toISOString()` read inside the
function, made an explicit argument of the pure embedding. The unusual
non-ASCII sequences reproduce the bytes of the source file. -/
def genFixLines (knownIssues : List Issue) (aiAnalysis : AIAnalysis)
    (fixId : String) (now : String) : List String :=
  let base := [
    "#!/usr/bin/env bash",
    "# ClawFix Fix Script â€” " ++ fixId,
    "# Generated: " ++ now,
    "# Review each step before running!",
    "#",
    "# Usage: bash fix.sh",
    "",
    "set -euo pipefail",
    "",
    "# Backup current config",
    "if [ -f ~/.openclaw/openclaw.json ]; then",
    "  cp ~/.openclaw/openclaw.json ~/.openclaw/openclaw.json.bak.$(date +%s)",
    "  echo \"âœ… Config backed up\"",
    "fi",
    ""]
  let issueLines := knownIssues.flatMap (fun issue =>
    ["# â”€â”€â”€ Fix: " ++ issue.title ++
       " (" ++ issue.severity ++ ") â”€â”€â”€",
     "# " ++ issue.description,
     issue.fix,
     ""])
  let aiLines :=
    if aiAnalysis.additionalFixes ≠ "" then
      ["# â”€â”€â”€ Additional AI-Recommended Fixes â”€â”€â”€",
       aiAnalysis.additionalFixes,
       ""]
    else []
  let restartLines :=
    if knownIssues.any (fun i => strContains i.fix "openclaw.json") then
      ["# â”€â”€â”€ Restart Gateway to Apply Changes â”€â”€â”€",
       "echo \"Restarting OpenClaw gateway...\"",
       "openclaw gateway restart 2>/dev/null || echo \"âš ï¸  Could not restart gateway automatically. Run: openclaw gateway restart\"",
       ""]
    else []
  let trailer := [
    "echo \"\"",
    "echo \"ğŸ¦ All fixes applied! Run 'openclaw status' to verify.\"",
    "echo \"Fix ID: " ++ fixId ++ "\"",
    "",
    "# â”€â”€â”€ Optional: Tell ClawFix if this worked â”€â”€â”€",
    "# This helps us improve fixes for everyone. Remove if you prefer.",
    "curl -s -X POST \"https://clawfix.dev/api/feedback/" ++ fixId ++ "\" \\",
    "  -H \"Content-Type: application/json\" \\",
    "  -d '\x7b\"success\": true\x7d' &>/dev/null || true"]
  base ++ issueLines ++ aiLines ++ restartLines ++ trailer

/-- The generateFixScript function of src/routes/diagnose.js
(`lines.join('\n')`). -/
def generateFixScript (knownIssues : List Issue) (aiAnalysis : AIAnalysis)
    (fixId : String) (now : String) : String :=
  String.intercalate "\n" (genFixLines knownIssues aiAnalysis fixId now)

/-- Client-facing issue summary (the `knownIssues` projection of the stored
result: id, severity, title, description). -/
structure IssueSummary where
  id : String
  severity : String
  title : String
  description : String
deriving DecidableEq, Repr

/-- The `systemInfo` object built by getDiagnosis of src/landing.js from the
durable row's columns. -/
structure SystemInfo where
  os : Option String
  nodeVersion : Option String
  openclawVersion : Option String
  serviceManager : Option String
  serviceState : Option String
deriving DecidableEq, Repr

/-- A value of the in-memory `fixes` map of src/routes/diagnose.js. Pipeline
result objects carry the underscore-prefixed internal fields and no
`systemInfo`; objects reconstructed by getDiagnosis carry `systemInfo` and no
underscore fields (`JsVal.undef` / `none` model an absent property). -/
structure StoredFix where
  fixId : String
  timestamp : String
  issuesFound : Int
  knownIssues : List IssueSummary
  analysis : String
  fixScript : Option String
  aiInsights : String
  model : String
  systemInfo : Option SystemInfo
  hostHash : JsVal
  os : JsVal
  arch : JsVal
  nodeVersion : JsVal
  openclawVersion : JsVal
  aiIssues : Option (List String)
deriving DecidableEq, Repr

/-- The client-visible projection produced by the destructuring
`const (underscore fields, ...clientResult) = result` of both read paths: every
remaining property of the stored object, which includes `systemInfo` when
present. -/
structure ClientFix where
  fixId : String
  timestamp : String
  issuesFound : Int
  knownIssues : List IssueSummary
  analysis : String
  fixScript : Option String
  aiInsights : String
  model : String
  systemInfo : Option SystemInfo
deriving DecidableEq, Repr

/-- The strip of the underscore-prefixed internal metadata before serialization
(`_hostHash, _os, _arch, _nodeVersion, _openclawVersion, _aiIssues` are
dropped; everything else is kept). -/
def stripInternal (f : StoredFix) : ClientFix :=
  { fixId := f.fixId, timestamp := f.timestamp, issuesFound := f.issuesFound,
    knownIssues := f.knownIssues, analysis := f.analysis, fixScript := f.fixScript,
    aiInsights := f.aiInsights, model := f.model, systemInfo := f.systemInfo }

/-- The in-memory `fixes` Map, as an insertion-ordered association list. -/
abbrev FixCache := List (String × StoredFix)

/-- Map.get: the value stored for a key. -/
def cacheGet (c : FixCache) (k : String) : Option StoredFix :=
  (c.find? (fun p => p.1 == k)).map Prod.snd

/-- Map.set: update in place when the key exists (keeping its insertion
position), append otherwise. -/
def mapSet (c : FixCache) (k : String) (v : StoredFix) : FixCache :=
  if c.any (fun p => p.1 == k) then
    c.map (fun p => if p.1 == k then (k, v) else p)
  else c ++ [(k, v)]

/-- Map.delete of a key. -/
def mapDelete (c : FixCache) (k : String) : FixCache :=
  c.filter (fun p => p.1 != k)

/-- The cache write of the diagnose handler: `fixes.set(fixId, result)` followed
by `if (fixes.size > 1000) fixes.delete(fixes.keys().next().value)` — insert,
then evict the first-inserted key when the size exceeds 1000. -/
def putFix (c : FixCache) (r : StoredFix) : FixCache :=
  let c1 := mapSet c r.fixId r
  if (c1 : List (String × StoredFix)).length > 1000 then
    match (c1 : List (String × StoredFix)).head? with
    | some p => mapDelete c1 p.1
    | none => c1
  else c1

/-- A row of the `diagnoses` table, with the columns getDiagnosis reads. -/
structure DbRow where
  id : String
  createdAtIso : String
  issuesCount : Int
  knownIssuesDetail : Option (List IssueSummary)
  issuesPattern : List String
  aiSummary : Option String
  fixScript : Option String
  aiInsights : Option String
  aiModel : Option String
  os : Option String
  arch : Option String
  nodeVersion : Option String
  openclawVersion : Option String
  serviceManager : Option String
  serviceState : Option String
deriving DecidableEq, Repr

/-- A row of the `patterns` table as read back by getDiagnosis's reconstruction
query. -/
structure PatternRec where
  id : String
  title : String
  severity : String
deriving DecidableEq, Repr

/-- JavaScript `x || null` on a nullable string column. -/
def strOrNull (o : Option String) : Option String :=
  match o with
  | some x => if x = "" then none else some x
  | none => none

/-- The getDiagnosis function of src/landing.js: select the row by id, use full
issue details when present (else reconstruct id/title/severity from the
patterns table), and rebuild a result object carrying a `systemInfo` block from
the row's os/arch/node_version/openclaw_version/service columns. The rebuilt
object has none of the underscore-prefixed internal fields. -/
def getDiagnosis (db : List DbRow) (patterns : List PatternRec) (fixId : String) :
    Option StoredFix :=
  match db.find? (fun r => r.id == fixId) with
  | none => none
  | some row =>
      let knownIssues0 := row.knownIssuesDetail.getD []
      let knownIssues :=
        if knownIssues0.isEmpty && decide (row.issuesPattern.length > 0) then
          row.issuesPattern.filterMap (fun pid =>
            (patterns.find? (fun p => p.id == pid)).map (fun p =>
              { id := p.id, title := p.title, severity := p.severity, description := "" }))
        else knownIssues0
      some
        { fixId := row.id,
          timestamp := row.createdAtIso,
          issuesFound := row.issuesCount,
          knownIssues := knownIssues,
          analysis := strFalsyOr (strOrEmpty row.aiSummary)
            ("Pattern matching found " ++ toString row.issuesCount ++ " issue(s)."),
          fixScript := strOrNull row.fixScript,
          aiInsights := strOrEmpty row.aiInsights,
          model := strFalsyOr (strOrEmpty row.aiModel) "pattern-matching",
          systemInfo := some
            { os :=
                match row.os with
                | some o => if o = "" then none else some (o ++ " (" ++ strOrEmpty row.arch ++ ")")
                | none => none,
              nodeVersion := strOrNull row.nodeVersion,
              openclawVersion := strOrNull row.openclawVersion,
              serviceManager := strOrNull row.serviceManager,
              serviceState := strOrNull row.serviceState },
          hostHash := .undef, os := .undef, arch := .undef, nodeVersion := .undef,
          openclawVersion := .undef, aiIssues := none }

/-- Responses of the `GET /api/fix/:fixId` route: 404, the plain-script
download (which sends only `fix.fixScript`), or the JSON projection. -/
inductive GetResponse where
  | notFound : GetResponse
  | script : Option String → GetResponse
  | json : ClientFix → GetResponse
deriving DecidableEq, Repr

/-- The `GET /api/fix/:fixId` handler of src/routes/diagnose.js: check the
in-memory cache, fall back to the durable backend, re-cache a durable hit
(without any eviction or capacity check), then serve 404 / plain script /
stripped JSON. `plain` models `accept: text/plain` or `?format=script`.
Returns the response together with the cache after the request. -/
def handleGetFix (cache : FixCache) (db : List DbRow) (patterns : List PatternRec)
    (fixId : String) (plain : Bool) : GetResponse × FixCache :=
  match cacheGet cache fixId with
  | some fix =>
      if plain then (.script fix.fixScript, cache)
      else (.json (stripInternal fix), cache)
  | none =>
      match getDiagnosis db patterns fixId with
      | some fix =>
          let cache2 := mapSet cache fixId fix
          if plain then (.script fix.fixScript, cache2)
          else (.json (stripInternal fix), cache2)
      | none => (.notFound, cache)

/-- The result object built by the `POST /api/diagnose` handler. `scriptNow`
and `resultNow` are the two `new Date().toISOString()` reads (one inside
generateFixScript, one for the stored timestamp); `aiModel` is AI_CONFIG.model. -/
def mkResult (diag : Snapshot) (knownIssues : List Issue) (aiAnalysis : AIAnalysis)
    (fixId scriptNow resultNow aiModel : String) : StoredFix :=
  { fixId := fixId,
    timestamp := resultNow,
    issuesFound := (knownIssues.length : Int) + (aiAnalysis.additionalIssues.length : Int),
    knownIssues := knownIssues.map (fun i =>
      { id := i.id, severity := i.severity, title := i.title, description := i.description }),
    analysis := aiAnalysis.summary,
    fixScript := some (generateFixScript knownIssues aiAnalysis fixId scriptNow),
    aiInsights := strFalsyOr aiAnalysis.insights "",
    model := aiModel,
    systemInfo := none,
    hostHash := diag.hostHash,
    os := diag.sysOs,
    arch := diag.sysArch,
    nodeVersion := diag.sysNodeVersion,
    openclawVersion := diag.oclawVersion,
    aiIssues := some aiAnalysis.additionalIssues }

/-- The `POST /api/diagnose` handler pipeline (after input validation): detect,
augment, compose, store into the cache with eviction, and answer with the
stripped projection. `callOutcome` models the outbound model call's outcome. -/
def postDiagnose (apiKey : Option String) (aiModel : String) (cache : FixCache)
    (diag : Snapshot) (callOutcome : Except String String)
    (fixId scriptNow resultNow : String) : ClientFix × FixCache :=
  let knownIssues := detectIssues diag
  let aiAnalysis := analyzeWithAI apiKey knownIssues callOutcome
  let result := mkResult diag knownIssues aiAnalysis fixId scriptNow resultNow aiModel
  (stripInternal result, putFix cache result)

/-- A row of the `patterns` statistics table (the `times_detected` counter with
the metadata stored beside it). -/
structure PatternRow where
  title : String
  severity : String
  timesDetected : Int
deriving DecidableEq, Repr

/-- The per-issue statement of storeDiagnosis (src/landing.js):
`INSERT INTO patterns … VALUES (…, 1, NOW()) ON CONFLICT (id) DO UPDATE SET
times_detected = patterns.times_detected + 1`. The whole statement is one
atomic database write: it creates the row with counter 1 on first sight and
otherwise increments the stored counter in place (title and severity are not
updated on conflict). -/
def upsertPattern (t : List (String × PatternRow)) (id title severity : String) :
    List (String × PatternRow) :=
  if t.any (fun p => p.1 == id) then
    t.map (fun p =>
      if p.1 == id then (p.1, { p.2 with timesDetected := p.2.timesDetected + 1 }) else p)
  else t ++ [(id, { title := title, severity := severity, timesDetected := 1 })]

/-- The pattern-counter loop of storeDiagnosis: one upsert per detected issue,
in order. -/
def storeDiagnosisPatterns (t : List (String × PatternRow)) (issues : List IssueSummary) :
    List (String × PatternRow) :=
  issues.foldl (fun acc i => upsertPattern acc i.id i.title i.severity) t

/-- The detected counter recorded for a rule id (0 when the row is absent). -/
def detectedCount (t : List (String × PatternRow)) (id : String) : Int :=
  ((t.find? (fun p => p.1 == id)).map (fun p => p.2.timesDetected)).getD 0

/-- Bool test for a boolean JavaScript value (used to state the non-boolean
predicate-result hypothesis of the engine's error-isolation contract). -/
def isBoolVal : JsVal → Bool
  | .bool _ => true
  | _ => false

/-- A snapshot with no anomaly except `enableGraph = true` under the plugin key
`openclaw-mem0`: explicit healthy configuration for every fail-open rule, a
`listening` gateway status, and no logs or service trouble. -/
def c9HealthySnapshot : Snapshot :=
  { emptySnapshot with
    pluginsEntries := [("openclaw-mem0", .bool true)],
    gatewayStatus := some "listening",
    hybridEnabled := .bool true,
    sessionTranscriptsEnabled := .bool true,
    contextPruning := .obj,
    memoryFlushEnabled := .bool true,
    compactionMode := .str "safeguard",
    compactionReserveTokensFloor := .num 32000,
    hasSoul := .bool true,
    hasAgents := .bool true,
    memoryFiles := some 3 }

/-- The same healthy snapshot but with the enableGraph toggle under the plugin
key `x` instead of `openclaw-mem0`. -/
def c9XSnapshot : Snapshot :=
  { c9HealthySnapshot with pluginsEntries := [("x", .bool true)] }

/-- Lines of a text, split at newline characters (model of how a joined script
is read back line by line; a text with no newline is one line). -/
def splitNl : List Char → List (List Char)
  | [] => [[]]
  | c :: cs =>
      if c = '\n' then [] :: splitNl cs
      else
        match splitNl cs with
        | l :: ls => (c :: l) :: ls
        | [] => [[c]]

/-- Lines of a string. -/
def textLines (s : String) : List (List Char) := splitNl s.data

/-- The comment line opening the composer's unconditional backup block. -/
def backupMarker : String := "# Backup current config"

/-- Number of lines of a composed script that are exactly the backup block's
opening comment line. -/
def backupBlockCount (script : String) : Nat :=
  (textLines script).count backupMarker.data

/-- The fallback augmenter output (no API key configured), used as a concrete
augmenter value in compositions. -/
def c2Aug : AIAnalysis := analyzeWithAI none [] (Except.error "boom")

/-- Key made of `n` letters `a` (distinct for distinct `n`), for bulk cache
inputs. -/
def aName (n : Nat) : String := String.mk (List.replicate n 'a')

/-- A minimal stored result with the given id. -/
def mkSimpleFix (k : String) : StoredFix :=
  { fixId := k, timestamp := "", issuesFound := 0, knownIssues := [], analysis := "",
    fixScript := none, aiInsights := "", model := "", systemInfo := none,
    hostHash := .undef, os := .undef, arch := .undef, nodeVersion := .undef,
    openclawVersion := .undef, aiIssues := none }

/-- 1001 stored results with pairwise distinct ids. -/
def c4Fixes : List StoredFix := (List.range 1001).map (fun i => mkSimpleFix (aName i))

/-- A cache already holding 1000 entries. -/
def c10Cache : FixCache :=
  (List.range 1000).map (fun i => (aName i, mkSimpleFix (aName i)))

/-- A durable row for an id not present in `c10Cache`. -/
def c10Row : DbRow :=
  { id := "b", createdAtIso := "2026-01-01T00:00:00.000Z", issuesCount := 0,
    knownIssuesDetail := some [], issuesPattern := [], aiSummary := none,
    fixScript := some "#!/usr/bin/env bash", aiInsights := none, aiModel := none,
    os := none, arch := none, nodeVersion := none, openclawVersion := none,
    serviceManager := none, serviceState := none }

/-- A durable row carrying provenance columns (OS, arch, runtime version,
installation version), as stored by storeDiagnosis for every diagnosis. -/
def c1Row : DbRow :=
  { id := "abc", createdAtIso := "2026-01-01T00:00:00.000Z", issuesCount := 1,
    knownIssuesDetail :=
      some [{ id := "no-soul", severity := "low", title := "No SOUL.md found", description := "d" }],
    issuesPattern := ["no-soul"], aiSummary := some "summary",
    fixScript := some "#!/usr/bin/env bash", aiInsights := none, aiModel := some "m",
    os := some "linux", arch := some "x64", nodeVersion := some "v20.0.0",
    openclawVersion := some "1.0.0", serviceManager := none, serviceState := none }

/-- Whether a client-visible projection is free of the provenance data named by
the spec (OS with architecture, runtime version, installation version); the
host fingerprint has no client-visible field at all. -/
def provenanceFree (c : ClientFix) : Bool :=
  match c.systemInfo with
  | none => true
  | some si => si.os == none && si.nodeVersion == none && si.openclawVersion == none

/-- provenanceFree lifted over a route response (404 and the plain-script
download carry no systemInfo object). -/
def responseProvFree : GetResponse → Bool
  | .json c => provenanceFree c
  | _ => true

/-- A concrete detected-issue summary for statistics inputs. -/
def c8Issue : IssueSummary :=
  { id := "gateway-zombie", severity := "critical",
    title := "Zombie gateway process (PID exists but not listening)", description := "" }

/-- The stored-fix object that getDiagnosis reconstructs from `c10Row`. -/
def c10Fetched : StoredFix :=
  { fixId := "b", timestamp := "2026-01-01T00:00:00.000Z", issuesFound := 0,
    knownIssues := [], analysis := "Pattern matching found 0 issue(s).",
    fixScript := some "#!/usr/bin/env bash", aiInsights := "", model := "pattern-matching",
    systemInfo :=
      some { os := none, nodeVersion := none, openclawVersion := none, serviceManager := none, serviceState := none },
    hostHash := .undef, os := .undef, arch := .undef, nodeVersion := .undef,
    openclawVersion := .undef, aiIssues := none }

/-- The nine fixed lines generateFixScript pushes before the backup block
(`now` again the clock reading made explicit). -/
def preambleLines (fixId now : String) : List String := [
  "#!/usr/bin/env bash",
  "# ClawFix Fix Script â€” " ++ fixId,
  "# Generated: " ++ now,
  "# Review each step before running!",
  "#",
  "# Usage: bash fix.sh",
  "",
  "set -euo pipefail",
  ""]

/-- The backup block's lines after its opening comment. -/
def backupTail : List String := [
  "if [ -f ~/.openclaw/openclaw.json ]; then",
  "  cp ~/.openclaw/openclaw.json ~/.openclaw/openclaw.json.bak.$(date +%s)",
  "  echo \"âœ… Config backed up\"",
  "fi",
  ""]

/-- The four lines generateFixScript pushes for one detected issue. -/
def issueBlock (issue : Issue) : List String :=
  ["# â”€â”€â”€ Fix: " ++ issue.title ++ " (" ++ issue.severity ++ ") â”€â”€â”€",
   "# " ++ issue.description,
   issue.fix,
   ""]

/-- The header line of the AI-recommended-fixes section. -/
def aiHeaderLine : String := "# â”€â”€â”€ Additional AI-Recommended Fixes â”€â”€â”€"

/-- The gateway-restart block appended when some fix touches openclaw.json. -/
def restartBlock : List String :=
  ["# â”€â”€â”€ Restart Gateway to Apply Changes â”€â”€â”€",
   "echo \"Restarting OpenClaw gateway...\"",
   "openclaw gateway restart 2>/dev/null || echo \"âš ï¸  Could not restart gateway automatically. Run: openclaw gateway restart\"",
   ""]

/-- The closing lines of every composed script. -/
def trailerLines (fixId : String) : List String := [
  "echo \"\"",
  "echo \"ğŸ¦ All fixes applied! Run 'openclaw status' to verify.\"",
  "echo \"Fix ID: " ++ fixId ++ "\"",
  "",
  "# â”€â”€â”€ Optional: Tell ClawFix if this worked â”€â”€â”€",
  "# This helps us improve fixes for everyone. Remove if you prefer.",
  "curl -s -X POST \"https://clawfix.dev/api/feedback/" ++ fixId ++ "\" \\",
  "  -H \"Content-Type: application/json\" \\",
  "  -d '\x7b\"success\": true\x7d' &>/dev/null || true"]

theorem jsEq_eq {a b : JsVal} (h : jsEq a b = true) : a = b := by
  cases a <;> cases b <;> simp_all [jsEq]

theorem jsAnd_good (a b : JsVal) (hb : isBoolVal b = true)
    (hnb : isBoolVal (jsAnd a b) = false) : (jsAnd a b).truthy = false := by
  by_cases ht : a.truthy = true
  · rw [jsAnd, if_pos ht] at hnb
    rw [hnb] at hb
    exact absurd hb (by decide)
  · rw [jsAnd, if_neg ht]
    cases hB : a.truthy
    · rfl
    · exact absurd hB ht

theorem zombie_excl (s : Snapshot) (h : matched gatewayZombieRule s = true) :
    matched gatewayNotListeningRule s = false := by
  simp only [matched, gatewayZombieRule] at h
  have hpe : s.processExists = JsVal.bool true := by
    rcases hand : jsEq s.processExists (JsVal.bool true) with _ | _
    · simp [JsVal.truthy, hand] at h
    · exact jsEq_eq hand
  simp only [matched, gatewayNotListeningRule]
  by_cases hpl : (s.portListening == JsVal.undef) = true
  · simp [hpl, JsVal.truthy]
  · simp [hpl, hpe, jsEq, JsVal.truthy]

theorem hb_good (s : Snapshot) (v : JsVal)
    (h : heartbeatNoModelOverrideRule.detect s = Except.ok v)
    (hnb : isBoolVal v = false) : v.truthy = false := by
  simp only [heartbeatNoModelOverrideRule] at h
  injection h with h
  subst h
  exact jsAnd_good _ _ (by simp [jsNot, isBoolVal]) hnb

theorem htu_good (s : Snapshot) (v : JsVal)
    (h : highTokenUsageRule.detect s = Except.ok v)
    (hnb : isBoolVal v = false) : v.truthy = false := by
  simp only [highTokenUsageRule] at h
  injection h with h
  subst h
  exact jsAnd_good _ _ (by simp [isBoolVal]) hnb

theorem registry_ok_nonbool_falsy (r : Rule) (hr : r ∈ KNOWN_ISSUES) (s : Snapshot) (v : JsVal)
    (h : r.detect s = Except.ok v) (hnb : isBoolVal v = false) : v.truthy = false := by
  unfold KNOWN_ISSUES at hr
  fin_cases hr
  all_goals first
  | exact hb_good s v h hnb
  | exact htu_good s v h hnb
  | (simp only [mem0GraphFreeRule, gatewayNotRunningRule, portConflictRule,
      browserPortBindingRule, noHybridSearchRule, noContextPruningRule, noMemoryFlushRule,
      noSoulRule, noMemoryFilesRule, ggmlMetalCrashRule, orphanToolCallsRule,
      duplicatePlugRule, stateDirMigrationRule, largeWorkspaceFilesRule,
      noCompactionConfigRule, missingAgentsMdRule, sessionTranscriptNotIndexedRule,
      autoUpdateRestartLoopRule, autoUpdateEnabledWarningRule,
      configReloadSigtermCascadeRule, gatewayExtendedDowntimeRule,
      browserRelayHandshakeSpamRule, matrixSyncTimeoutSpamRule, oversizedErrorLogRule,
      launchdCorruptedStateRule, gatewayZombieRule, gatewayNotListeningRule,
      gatewayWatchdogMissingRule] at h
     repeat' split at h
     all_goals (injection h with h; subst h; simp [isBoolVal, jsNot] at hnb))

theorem registry_ids_nodup : (KNOWN_ISSUES.map Rule.id).Nodup := by decide

theorem mem_detectIssuesOn {a : Issue} {rules : List Rule} {s : Snapshot} :
    a ∈ detectIssuesOn rules s ↔ ∃ r, (r ∈ rules ∧ matched r s = true) ∧ toIssue r = a := by
  simp [detectIssuesOn, List.mem_map, List.mem_filter]

theorem detectIssuesOn_sublist (rules : List Rule) (s : Snapshot) :
    List.Sublist (detectIssuesOn rules s) (rules.map toIssue) :=
  List.Sublist.map toIssue (List.filter_sublist rules)

theorem nodup_ids_inj {rules : List Rule} (hn : (rules.map Rule.id).Nodup)
    {r q : Rule} (hr : r ∈ rules) (hq : q ∈ rules) (hid : r.id = q.id) : r = q := by
  induction rules with
  | nil => cases hr
  | cons a l ih =>
    rw [List.map_cons, List.nodup_cons] at hn
    rcases List.mem_cons.mp hr with rfl | hr' <;> rcases List.mem_cons.mp hq with rfl | hq'
    · rfl
    · exact absurd (hid ▸ List.mem_map_of_mem Rule.id hq') hn.1
    · exact absurd (hid ▸ List.mem_map_of_mem Rule.id hr') hn.1
    · exact ih hn.2 hr' hq'

theorem detectIssuesOn_cons (a : Rule) (l : List Rule) (s : Snapshot) :
    detectIssuesOn (a :: l) s =
      if matched a s then toIssue a :: detectIssuesOn l s else detectIssuesOn l s := by
  simp only [detectIssuesOn, List.filter_cons]
  split <;> simp_all

theorem detectIssuesOn_filter_not_id (rules : List Rule) (s : Snapshot) (rid : String)
    (hF : ∀ q ∈ rules, q.id = rid → matched q s = false) :
    detectIssuesOn rules s = detectIssuesOn (rules.filter (fun q => q.id != rid)) s := by
  induction rules with
  | nil => rfl
  | cons a l ih =>
    have ih' := ih (fun q hq h => hF q (List.mem_cons_of_mem a hq) h)
    by_cases ha : a.id = rid
    · have hm : matched a s = false := hF a (List.mem_cons_self a l) ha
      have h1 : (a :: l).filter (fun q => q.id != rid) = l.filter (fun q => q.id != rid) := by
        simp [List.filter_cons, ha]
      rw [h1, detectIssuesOn_cons, hm, if_neg (by decide), ih']
    · have h1 : (a :: l).filter (fun q => q.id != rid) = a :: l.filter (fun q => q.id != rid) := by
        simp [List.filter_cons, ha]
      rw [h1, detectIssuesOn_cons, detectIssuesOn_cons, ih']

theorem detectIssuesOn_filter_id (rules : List Rule) (s : Snapshot) (rid : String)
    (hF : ∀ q ∈ rules, q.id ≠ rid → matched q s = false) :
    detectIssuesOn rules s = detectIssuesOn (rules.filter (fun q => q.id == rid)) s := by
  induction rules with
  | nil => rfl
  | cons a l ih =>
    have ih' := ih (fun q hq h => hF q (List.mem_cons_of_mem a hq) h)
    by_cases ha : a.id = rid
    · have h1 : (a :: l).filter (fun q => q.id == rid) = a :: l.filter (fun q => q.id == rid) := by
        simp [List.filter_cons, ha]
      rw [h1, detectIssuesOn_cons, detectIssuesOn_cons, ih']
    · have hm : matched a s = false := hF a (List.mem_cons_self a l) ha
      have h1 : (a :: l).filter (fun q => q.id == rid) = l.filter (fun q => q.id == rid) := by
        simp [List.filter_cons, ha]
      rw [h1, detectIssuesOn_cons, hm, if_neg (by decide), ih']

theorem detect_id_mem (s : Snapshot) (rid : String)
    (h : ((detectIssues s).map Issue.id).contains rid = true) :
    ∃ r, r ∈ KNOWN_ISSUES ∧ matched r s = true ∧ r.id = rid := by
  rw [List.contains_eq_any_beq] at h
  simp only [List.any_eq_true, List.mem_map, beq_iff_eq] at h
  obtain ⟨a, ⟨iz, hiz, hida⟩, haz⟩ := h
  obtain ⟨r, ⟨hr, hm⟩, he⟩ := mem_detectIssuesOn.mp hiz
  refine ⟨r, hr, hm, ?_⟩
  have h2 := congrArg Issue.id he
  simp only [toIssue] at h2
  rw [h2, hida, haz]

/-- Claim C3: for every snapshot, the zombie rule (`gateway-zombie`: process
exists but port not listening) and the clean-down rule (`gateway-not-listening`:
port not listening and process absent) are never both present in one detection
result. -/
theorem claim_C3 (s : Snapshot) :
    (((detectIssues s).map Issue.id).contains "gateway-zombie" &&
      ((detectIssues s).map Issue.id).contains "gateway-not-listening") = false := by
  by_contra hcon
  rw [Bool.not_eq_false, Bool.and_eq_true] at hcon
  obtain ⟨rz, hrz, hmz, hidz⟩ := detect_id_mem s _ hcon.1
  obtain ⟨rm, hrm, hmm, hidm⟩ := detect_id_mem s _ hcon.2
  have hz3 : rz = gatewayZombieRule :=
    nodup_ids_inj registry_ids_nodup hrz (by simp [KNOWN_ISSUES]) (by rw [hidz]; rfl)
  have hm3 : rm = gatewayNotListeningRule :=
    nodup_ids_inj registry_ids_nodup hrm (by simp [KNOWN_ISSUES]) (by rw [hidm]; rfl)
  rw [hz3] at hmz
  rw [hm3] at hmm
  rw [zombie_excl s hmz] at hmm
  cases hmm

/-- Claim C5: for every snapshot and every registry rule whose predicate throws
or returns a non-boolean value on that snapshot, detectIssues treats that rule
as not matched (its issue is absent from the output), still evaluates all
remaining rules (the output equals the detection over the registry without that
rule), and returns the matched issues in registry declaration order (the output
is a sublist of the registry's issue projection). detectIssues itself is a
total function of the snapshot, so it never throws. -/
theorem claim_C5 (s : Snapshot) (r : Rule) (hr : r ∈ KNOWN_ISSUES)
    (hbad : r.detect s = Except.error () ∨
      ∃ v, r.detect s = Except.ok v ∧ isBoolVal v = false) :
    toIssue r ∉ detectIssues s ∧
    detectIssues s = detectIssuesOn (KNOWN_ISSUES.filter (fun q => q.id != r.id)) s ∧
    List.Sublist (detectIssues s) (KNOWN_ISSUES.map toIssue) := by
  have hmf : matched r s = false := by
    rcases hbad with he | ⟨v, hv, hnb⟩
    · simp [matched, he]
    · have hfalsy := registry_ok_nonbool_falsy r hr s v hv hnb
      simp [matched, hv, hfalsy]
  refine ⟨?_, ?_, detectIssuesOn_sublist _ _⟩
  · intro hmem
    obtain ⟨q, ⟨hq, hmq⟩, he⟩ := mem_detectIssuesOn.mp hmem
    have hid : q.id = r.id := by
      have h2 := congrArg Issue.id he
      simpa [toIssue] using h2
    have hqr : q = r := nodup_ids_inj registry_ids_nodup hq hr hid
    rw [hqr, hmf] at hmq
    cases hmq
  · exact detectIssuesOn_filter_not_id KNOWN_ISSUES s r.id
      (fun q hq hqid => by
        have hqr : q = r := nodup_ids_inj registry_ids_nodup hq hr hqid
        rw [hqr]; exact hmf)

/-- Witness for claim C5: on the empty snapshot, the predicate of
`heartbeat-no-model-override` evaluates to the non-boolean value `undefined`,
and detection treats the rule as not matched while preserving the rest. -/
theorem claim_C5_witness :
    (heartbeatNoModelOverrideRule ∈ KNOWN_ISSUES ∧
      heartbeatNoModelOverrideRule.detect emptySnapshot = Except.ok JsVal.undef ∧
      isBoolVal JsVal.undef = false) ∧
    (toIssue heartbeatNoModelOverrideRule ∉ detectIssues emptySnapshot ∧
      detectIssues emptySnapshot =
        detectIssuesOn
          (KNOWN_ISSUES.filter (fun q => q.id != heartbeatNoModelOverrideRule.id))
          emptySnapshot ∧
      List.Sublist (detectIssues emptySnapshot) (KNOWN_ISSUES.map toIssue)) :=
  ⟨⟨by simp [KNOWN_ISSUES], rfl, rfl⟩,
   claim_C5 emptySnapshot heartbeatNoModelOverrideRule (by simp [KNOWN_ISSUES])
     (Or.inr ⟨JsVal.undef, rfl, rfl⟩)⟩

theorem mem0_matched (s : Snapshot)
    (h1 : s.pluginsEntries.lookup "openclaw-mem0" = some (JsVal.bool true)) :
    matched mem0GraphFreeRule s = true := by
  simp only [matched, mem0GraphFreeRule, h1]
  rfl

/-- Counterexample for claim C9: a snapshot whose configuration sets
`config.plugins.entries["x"].config.enableGraph = true` — with the key `x`
exactly as the claim writes it — and no other anomalies yields an empty
detection result, not one critical `mem0-graph-free` issue: the rule keys off
the literal plugin key `openclaw-mem0`. -/
theorem claim_C9_counterexample :
    c9XSnapshot.pluginsEntries.lookup "x" = some (JsVal.bool true) ∧
    detectIssues c9XSnapshot = [] :=
  ⟨rfl, by decide⟩

/-- Claim C9 as amended: for every snapshot whose configuration sets
`config.plugins.entries["openclaw-mem0"].config.enableGraph = true` (the plugin
key the rule reads) and that matches no other rule, detection yields exactly
one issue, `mem0-graph-free`, and its severity is critical. -/
theorem claim_C9_amended (s : Snapshot)
    (h1 : s.pluginsEntries.lookup "openclaw-mem0" = some (JsVal.bool true))
    (h2 : ∀ r ∈ KNOWN_ISSUES, r.id ≠ "mem0-graph-free" → matched r s = false) :
    detectIssues s = [toIssue mem0GraphFreeRule] ∧
    (toIssue mem0GraphFreeRule).severity = "critical" := by
  constructor
  · have hstep := detectIssuesOn_filter_id KNOWN_ISSUES s "mem0-graph-free" h2
    have hfil : KNOWN_ISSUES.filter (fun q => q.id == "mem0-graph-free") =
        [mem0GraphFreeRule] := rfl
    rw [detectIssues, hstep, hfil, detectIssuesOn_cons, mem0_matched s h1, if_pos rfl]
    rfl
  · rfl

/-- Witness for the amended claim C9: the healthy snapshot with
`enableGraph = true` under `openclaw-mem0` satisfies both hypotheses and yields
exactly the critical `mem0-graph-free` issue. -/
theorem claim_C9_witness :
    (c9HealthySnapshot.pluginsEntries.lookup "openclaw-mem0" = some (JsVal.bool true) ∧
      (∀ r ∈ KNOWN_ISSUES, r.id ≠ "mem0-graph-free" → matched r c9HealthySnapshot = false)) ∧
    (detectIssues c9HealthySnapshot = [toIssue mem0GraphFreeRule] ∧
      (toIssue mem0GraphFreeRule).severity = "critical") :=
  ⟨⟨rfl, by decide⟩, claim_C9_amended c9HealthySnapshot rfl (by decide)⟩
theorem mapSet_fresh {c : FixCache} {k : String} {v : StoredFix}
    (h : k ∉ c.map Prod.fst) : mapSet c k v = c ++ [(k, v)] := by
  rw [mapSet, if_neg]
  intro hany
  rw [List.any_eq_true] at hany
  obtain ⟨p, hp, hpk⟩ := hany
  rw [beq_iff_eq] at hpk
  exact h (hpk ▸ List.mem_map_of_mem Prod.fst hp)

theorem cacheGet_eq_none {c : FixCache} {k : String} (h : k ∉ c.map Prod.fst) :
    cacheGet c k = none := by
  have hf : c.find? (fun p => p.1 == k) = none :=
    List.find?_eq_none.mpr (fun p hp => by
      simp only [beq_iff_eq]
      intro he
      exact h (he ▸ List.mem_map_of_mem Prod.fst hp))
  rw [cacheGet, hf]
  rfl

theorem cacheGet_none_not_mem {c : FixCache} {k : String} (h : cacheGet c k = none) :
    k ∉ c.map Prod.fst := by
  intro hmem
  obtain ⟨p, hp, hpk⟩ := List.mem_map.mp hmem
  rw [cacheGet, Option.map_eq_none'] at h
  have hnp := List.find?_eq_none.mp h p hp
  simp [hpk] at hnp

theorem cacheGet_append_right (c : FixCache) (k : String) (v : StoredFix) :
    k ∉ c.map Prod.fst → cacheGet (c ++ [(k, v)]) k = some v := by
  induction c with
  | nil => intro _; simp [cacheGet, List.find?]
  | cons p t ih =>
    intro h
    rw [List.map_cons] at h
    have hpk : (p.1 == k) = false := by
      rw [beq_eq_false_iff_ne]
      intro he
      exact h (by rw [he]; exact List.mem_cons_self _ _)
    have ht : k ∉ t.map Prod.fst := fun hm => h (List.mem_cons_of_mem _ hm)
    simp only [cacheGet, List.cons_append, List.find?, hpk] at ih ⊢
    exact ih ht

theorem cacheGet_set (c : FixCache) (k : String) (v : StoredFix) :
    cacheGet (mapSet c k v) k = some v := by
  by_cases hmem : c.any (fun p => p.1 == k) = true
  · rw [mapSet, if_pos hmem]
    induction c with
    | nil => cases hmem
    | cons p t ih =>
      rw [List.map_cons]
      by_cases hpk : (p.1 == k) = true
      · rw [if_pos hpk]
        simp [cacheGet, List.find?]
      · have hpkF : (p.1 == k) = false := by
          cases hB : (p.1 == k)
          · rfl
          · exact absurd hB hpk
        rw [if_neg (by simp [hpkF])]
        rw [List.any_cons, hpkF, Bool.false_or] at hmem
        simp only [cacheGet, List.find?, hpkF] at ih ⊢
        exact ih hmem
  · have hfresh : k ∉ c.map Prod.fst := by
      intro hm
      obtain ⟨p, hp, hpk⟩ := List.mem_map.mp hm
      exact hmem (List.any_eq_true.mpr ⟨p, hp, by simp [hpk]⟩)
    rw [mapSet, if_neg hmem]
    exact cacheGet_append_right c k v hfresh

theorem cacheGet_delete_ne (c : FixCache) (k k' : String) (h : k ≠ k') :
    cacheGet (mapDelete c k') k = cacheGet c k := by
  induction c with
  | nil => rfl
  | cons p t ih =>
    by_cases hpk : (p.1 == k') = true
    · have hbne : (p.1 != k') = false := by simp [bne, hpk]
      have h1 : mapDelete (p :: t) k' = mapDelete t k' := by
        simp [mapDelete, List.filter_cons, hbne]
      have hk : (p.1 == k) = false := by
        rw [beq_eq_false_iff_ne]
        intro he
        exact h (he.symm.trans (beq_iff_eq.mp hpk))
      rw [h1, ih]
      simp [cacheGet, List.find?, hk]
    · have hpkF : (p.1 == k') = false := by
        cases hB : (p.1 == k')
        · rfl
        · exact absurd hB hpk
      have hbne : (p.1 != k') = true := by simp [bne, hpkF]
      have h1 : mapDelete (p :: t) k' = p :: mapDelete t k' := by
        simp [mapDelete, List.filter_cons, hbne]
      rw [h1]
      by_cases hk : (p.1 == k) = true
      · simp [cacheGet, List.find?, hk]
      · have hkF : (p.1 == k) = false := by
          cases hB : (p.1 == k)
          · rfl
          · exact absurd hB hk
        simp only [cacheGet, List.find?, hkF]
        exact ih

theorem mapSet_length_mem (c : FixCache) (k : String) (v : StoredFix)
    (h : c.any (fun p => p.1 == k) = true) : (mapSet c k v).length = c.length := by
  rw [mapSet, if_pos h, List.length_map]

theorem cacheGet_putFix (cache : FixCache) (r : StoredFix)
    (h : r.fixId ∉ cache.map Prod.fst ∨ cache.length ≤ 1000) :
    cacheGet (putFix cache r) r.fixId = some r := by
  rw [putFix]
  by_cases hev : (mapSet cache r.fixId r).length > 1000
  · rw [if_pos hev]
    have hfresh : r.fixId ∉ cache.map Prod.fst := by
      rcases h with hfresh | hlen
      · exact hfresh
      · intro hmem
        obtain ⟨p, hp, hpk⟩ := List.mem_map.mp hmem
        have hany : cache.any (fun p => p.1 == r.fixId) = true :=
          List.any_eq_true.mpr ⟨p, hp, by simp [hpk]⟩
        rw [mapSet_length_mem cache r.fixId r hany] at hev
        omega
    rw [mapSet_fresh hfresh]
    have hne : cache ≠ [] := by
      intro hnil
      rw [mapSet_fresh hfresh, hnil] at hev
      simp at hev
    obtain ⟨p0, ct, rfl⟩ : ∃ p0 ct, cache = p0 :: ct := by
      cases cache with
      | nil => exact absurd rfl hne
      | cons a t => exact ⟨a, t, rfl⟩
    simp only [List.cons_append, List.head?_cons]
    have hkne : r.fixId ≠ p0.1 := by
      intro he
      exact hfresh (he ▸ List.mem_map_of_mem Prod.fst (List.mem_cons_self p0 ct))
    rw [cacheGet_delete_ne _ _ _ hkne]
    exact cacheGet_append_right (p0 :: ct) r.fixId r hfresh
  · rw [if_neg hev]
    exact cacheGet_set cache r.fixId r

/-- Claim C6: round-trip through the result store — for every stored result,
put (the cache write of the diagnose handler, including its eviction step)
followed immediately by get of the same id answers from the cache with a value
equal to the stored result with exactly the internal underscore-prefixed
fields removed (the stripInternal projection). The hypothesis rules out only
the degenerate state in which the cache both exceeds its bound (possible only
via get-repopulation) and already contains the id at its oldest position. -/
theorem claim_C6 (cache : FixCache) (db : List DbRow) (patterns : List PatternRec)
    (r : StoredFix) (h : r.fixId ∉ cache.map Prod.fst ∨ cache.length ≤ 1000) :
    handleGetFix (putFix cache r) db patterns r.fixId false =
      (GetResponse.json (stripInternal r), putFix cache r) := by
  rw [handleGetFix, cacheGet_putFix cache r h]
  rfl

/-- Claim C10: on a cache miss followed by a durable-backend hit, the get path
inserts the fetched result into the in-memory cache by a plain Map.set with no
eviction or capacity check, so the cache grows by one entry; when it already
holds at least 1000 entries, such a repopulating get leaves it holding more
than 1000. -/
theorem claim_C10 (cache : FixCache) (db : List DbRow) (patterns : List PatternRec)
    (k : String) (plain : Bool) (f : StoredFix)
    (h1 : cacheGet cache k = none)
    (h2 : getDiagnosis db patterns k = some f) :
    (handleGetFix cache db patterns k plain).2 = mapSet cache k f ∧
    (handleGetFix cache db patterns k plain).2.length = cache.length + 1 ∧
    (cache.length ≥ 1000 → (handleGetFix cache db patterns k plain).2.length > 1000) := by
  have hfresh : k ∉ cache.map Prod.fst := cacheGet_none_not_mem h1
  have hresp : (handleGetFix cache db patterns k plain).2 = mapSet cache k f := by
    rw [handleGetFix, h1, h2]
    cases plain <;> rfl
  have hlen : (mapSet cache k f).length = cache.length + 1 := by
    rw [mapSet_fresh hfresh, List.length_append, List.length_cons, List.length_nil]
  refine ⟨hresp, ?_, ?_⟩
  · rw [hresp, hlen]
  · intro hge
    rw [hresp, hlen]
    omega

theorem cacheGet_map_pair : ∀ (l : List StoredFix),
    (l.map StoredFix.fixId).Nodup → ∀ r ∈ l,
    cacheGet (l.map (fun x => (x.fixId, x))) r.fixId = some r := by
  intro l
  induction l with
  | nil => intro _ r hr; cases hr
  | cons a t ih =>
    intro hnd r hr
    rw [List.map_cons, List.nodup_cons] at hnd
    rcases List.mem_cons.mp hr with rfl | hr'
    · simp [cacheGet, List.find?]
    · have hne : (a.fixId == r.fixId) = false := by
        rw [beq_eq_false_iff_ne]
        intro he
        exact hnd.1 (he ▸ List.mem_map_of_mem StoredFix.fixId hr')
      simp only [List.map_cons, cacheGet, List.find?, hne]
      exact ih hnd.2 r hr'

theorem mapDelete_head (k0 : String) (v0 : StoredFix) (t : FixCache)
    (h : k0 ∉ t.map Prod.fst) : mapDelete ((k0, v0) :: t) k0 = t := by
  rw [mapDelete, List.filter_cons]
  have hb : (((k0, v0).1 != k0)) = false := by simp
  rw [hb, if_neg (by decide)]
  exact List.filter_eq_self.mpr (fun p hp => by
    simp only [bne_iff_ne, ne_eq]
    intro he
    exact h (he ▸ List.mem_map_of_mem Prod.fst hp))

theorem foldl_putFix_fill : ∀ (rs : List StoredFix) (c : FixCache),
    c.length + rs.length ≤ 1000 →
    (c.map Prod.fst ++ rs.map StoredFix.fixId).Nodup →
    rs.foldl putFix c = c ++ rs.map (fun r => (r.fixId, r)) := by
  intro rs
  induction rs with
  | nil => intro c _ _; simp
  | cons r t ih =>
    intro c hlen hnd
    rw [List.map_cons] at hnd
    have hfresh : r.fixId ∉ c.map Prod.fst := by
      intro hmem
      exact (List.disjoint_of_nodup_append hnd) hmem (List.mem_cons_self _ _)
    have hnoev : ¬ ((c ++ [(r.fixId, r)]).length > 1000) := by
      rw [List.length_append, List.length_cons, List.length_nil]
      simp only [List.length_cons] at hlen
      omega
    have hstep : putFix c r = c ++ [(r.fixId, r)] := by
      rw [putFix, mapSet_fresh hfresh, if_neg hnoev]
    rw [List.foldl_cons, hstep,
      ih (c ++ [(r.fixId, r)]) (by simp only [List.length_append, List.length_cons,
        List.length_nil] at hlen ⊢; omega) ?_]
    · simp
    · rw [List.map_append]
      simp only [List.map_cons, List.map_nil]
      rw [List.append_assoc, List.singleton_append]
      exact hnd

/-- Claim C4: the result store cache is bounded at 1000 entries with strict
FIFO eviction on put — after inserting 1001 distinct results via put into an
empty cache, exactly 1000 entries remain resolvable by cache-only lookup, the
first inserted id resolves to nothing, and every later result is still
resolvable to itself. -/
theorem claim_C4 (rs : List StoredFix) (h1 : rs.length = 1001)
    (h2 : (rs.map StoredFix.fixId).Nodup) :
    (rs.foldl putFix []).length = 1000 ∧
    (∀ r0 ∈ rs.take 1, cacheGet (rs.foldl putFix []) r0.fixId = none) ∧
    (∀ r ∈ rs.drop 1, cacheGet (rs.foldl putFix []) r.fixId = some r) := by
  obtain ⟨rl, hrl⟩ : ∃ rl, rs.drop 1000 = [rl] := by
    have hd : (rs.drop 1000).length = 1 := by rw [List.length_drop, h1]
    exact List.length_eq_one.mp hd
  have hsplit : rs = rs.take 1000 ++ [rl] := by
    conv_lhs => rw [← List.take_append_drop 1000 rs]
    rw [hrl]
  have htlen : (rs.take 1000).length = 1000 := by
    rw [List.length_take, h1]
    decide
  obtain ⟨r0, t', ht'⟩ : ∃ r0 t', rs.take 1000 = r0 :: t' := by
    cases htake : rs.take 1000 with
    | nil => rw [htake] at htlen; cases htlen
    | cons a b => exact ⟨a, b, rfl⟩
  have ht'len : t'.length = 999 := by
    rw [ht'] at htlen
    simpa using htlen
  have hmapids : rs.map StoredFix.fixId =
      r0.fixId :: (t'.map StoredFix.fixId ++ [rl.fixId]) := by
    rw [hsplit, ht']
    simp
  have hND := hmapids ▸ h2
  have hhead : r0.fixId ∉ t'.map StoredFix.fixId ++ [rl.fixId] := (List.nodup_cons.mp hND).1
  have htail : (t'.map StoredFix.fixId ++ [rl.fixId]).Nodup := (List.nodup_cons.mp hND).2
  have hnd1000 : ((rs.take 1000).map StoredFix.fixId).Nodup :=
    List.Nodup.sublist (List.Sublist.map _ (List.take_sublist _ _)) h2
  have hfold : (rs.take 1000).foldl putFix [] =
      (rs.take 1000).map (fun r => (r.fixId, r)) := by
    have hfill := foldl_putFix_fill (rs.take 1000) [] (by rw [htlen]; simp)
      (by simpa using hnd1000)
    simpa using hfill
  have hfoldall : rs.foldl putFix [] =
      putFix ((rs.take 1000).map (fun r => (r.fixId, r))) rl := by
    conv_lhs => rw [hsplit]
    rw [List.foldl_append, hfold]
    rfl
  have hfreshlast : rl.fixId ∉ ((rs.take 1000).map (fun r => (r.fixId, r))).map Prod.fst := by
    intro hmem
    rw [List.map_map] at hmem
    have hmem' : rl.fixId ∈ (rs.take 1000).map StoredFix.fixId := by
      simpa using hmem
    rw [ht'] at hmem'
    rcases List.mem_cons.mp hmem' with he | hm
    · exact hhead (by rw [← he]; exact List.mem_append_right _ (List.mem_singleton_self _))
    · have : rl.fixId ∈ t'.map StoredFix.fixId ++ [rl.fixId] :=
        List.mem_append_right _ (List.mem_singleton_self _)
      rcases List.nodup_append.mp htail with ⟨hnt, _, hdisj⟩
      exact hdisj hm (List.mem_singleton_self _)  
  have hrest : r0.fixId ∉ (t'.map (fun r => (r.fixId, r)) ++ [(rl.fixId, rl)]).map Prod.fst := by
    intro hmem
    rw [List.map_append, List.map_map] at hmem
    apply hhead
    simpa using hmem
  have hfinal : rs.foldl putFix [] = (t' ++ [rl]).map (fun r => (r.fixId, r)) := by
    rw [hfoldall, putFix, mapSet_fresh hfreshlast]
    have hlen1001 :
        (((rs.take 1000).map (fun r => (r.fixId, r))) ++ [(rl.fixId, rl)]).length > 1000 := by
      rw [List.length_append, List.length_map, htlen]
      simp
    rw [if_pos hlen1001, ht']
    simp only [List.map_cons, List.cons_append, List.head?_cons]
    rw [mapDelete_head r0.fixId r0 _ (by simpa using hrest)]
    simp [List.map_append]
  have hdrop : rs.drop 1 = t' ++ [rl] := by
    rw [hsplit, ht']
    rfl
  have htake1 : rs.take 1 = [r0] := by
    rw [hsplit, ht']
    rfl
  refine ⟨?_, ?_, ?_⟩
  · rw [hfinal]
    simp [ht'len]
  · intro x hx
    rw [htake1, List.mem_singleton] at hx
    subst hx
    rw [hfinal]
    apply cacheGet_eq_none
    intro hmem
    apply hhead
    simp only [List.map_map, List.map_append] at hmem
    simpa using hmem
  · intro x hx
    rw [hdrop] at hx
    rw [hfinal]
    apply cacheGet_map_pair
    · simp only [List.map_append, List.map_cons, List.map_nil]
      exact htail
    · exact hx

/-- Witness for claim C6: putting a fresh result into the empty cache and
immediately getting its id returns the stripped projection. -/
theorem claim_C6_witness :
    ((mkSimpleFix "a").fixId ∉ ([] : FixCache).map Prod.fst ∨
      ([] : FixCache).length ≤ 1000) ∧
    handleGetFix (putFix [] (mkSimpleFix "a")) [] [] (mkSimpleFix "a").fixId false =
      (GetResponse.json (stripInternal (mkSimpleFix "a")), putFix [] (mkSimpleFix "a")) :=
  ⟨Or.inr (by decide), claim_C6 [] [] [] (mkSimpleFix "a") (Or.inr (by decide))⟩

theorem aName_inj : Function.Injective aName := by
  intro i j h
  have hlen := congrArg (fun s => s.data.length) h
  simpa [aName] using hlen

theorem c4Fixes_ids_nodup : (c4Fixes.map StoredFix.fixId).Nodup := by
  rw [c4Fixes, List.map_map]
  exact List.Nodup.map aName_inj (List.nodup_range 1001)

theorem c10Cache_get_none : cacheGet c10Cache "b" = none := by
  apply cacheGet_eq_none
  intro hmem
  rw [c10Cache, List.map_map] at hmem
  obtain ⟨i, hi, he⟩ := List.mem_map.mp hmem
  have he' : aName i = "b" := he
  have hlen := congrArg (fun s => s.data.length) he'
  simp [aName] at hlen
  subst hlen
  exact absurd he' (by decide)

/-- Witness for claim C4: 1001 concrete results with pairwise distinct ids
leave 1000 cache entries, with exactly the first id evicted. -/
theorem claim_C4_witness :
    (c4Fixes.length = 1001 ∧ (c4Fixes.map StoredFix.fixId).Nodup) ∧
    ((c4Fixes.foldl putFix []).length = 1000 ∧
      (∀ r0 ∈ c4Fixes.take 1, cacheGet (c4Fixes.foldl putFix []) r0.fixId = none) ∧
      (∀ r ∈ c4Fixes.drop 1, cacheGet (c4Fixes.foldl putFix []) r.fixId = some r)) :=
  ⟨⟨by simp [c4Fixes], c4Fixes_ids_nodup⟩,
   claim_C4 c4Fixes (by simp [c4Fixes]) c4Fixes_ids_nodup⟩

/-- Witness for claim C10: a repopulating get against a 1000-entry cache grows
it to 1001 entries. -/
theorem claim_C10_witness :
    (cacheGet c10Cache "b" = none ∧ getDiagnosis [c10Row] [] "b" = some c10Fetched ∧
      c10Cache.length = 1000) ∧
    ((handleGetFix c10Cache [c10Row] [] "b" false).2 = mapSet c10Cache "b" c10Fetched ∧
      (handleGetFix c10Cache [c10Row] [] "b" false).2.length = c10Cache.length + 1 ∧
      (c10Cache.length ≥ 1000 →
        (handleGetFix c10Cache [c10Row] [] "b" false).2.length > 1000)) :=
  ⟨⟨c10Cache_get_none, by decide, by simp [c10Cache]⟩,
   claim_C10 c10Cache [c10Row] [] "b" false c10Fetched c10Cache_get_none (by decide)⟩
/-- Claim C7: if the augmenter's external call throws (network error, timeout,
non-success status, malformed response — all modelled by the error outcome of
the call), the error is caught inside analyzeWithAI and never propagated (the
function returns the fallback record; the first conjunct), and the pipeline
still produces a result whose analysis string is non-empty and whose
aiInsights string is empty. -/
theorem claim_C7 (diag : Snapshot) (key e : String)
    (fixId scriptNow resultNow aiModel : String) :
    (analyzeWithAI (some key) (detectIssues diag) (Except.error e) =
      { summary := "Pattern matching found " ++ toString (detectIssues diag).length ++
          " issue(s). AI analysis unavailable (" ++ e ++ ").",
        insights := "", additionalIssues := [], additionalFixes := "", raw := none }) ∧
    (mkResult diag (detectIssues diag)
        (analyzeWithAI (some key) (detectIssues diag) (Except.error e))
        fixId scriptNow resultNow aiModel).analysis ≠ "" ∧
    (mkResult diag (detectIssues diag)
        (analyzeWithAI (some key) (detectIssues diag) (Except.error e))
        fixId scriptNow resultNow aiModel).aiInsights = "" := by
  refine ⟨rfl, ?_, rfl⟩
  intro h
  simp only [mkResult, analyzeWithAI] at h
  have hl := congrArg String.length h
  simp only [String.length_append] at hl
  have h23 : ("Pattern matching found ").length = 23 := rfl
  have h0 : ("" : String).length = 0 := rfl
  rw [h23, h0] at hl
  omega

theorem detectedCount_upsert (t : List (String × PatternRow)) (id title severity : String) :
    detectedCount (upsertPattern t id title severity) id = detectedCount t id + 1 := by
  by_cases hmem : t.any (fun p => p.1 == id) = true
  · rw [upsertPattern, if_pos hmem]
    induction t with
    | nil => cases hmem
    | cons p tl ih =>
      by_cases hpk : (p.1 == id) = true
      · rw [List.map_cons, if_pos hpk]
        simp [detectedCount, List.find?, hpk]
      · have hpkF : (p.1 == id) = false := by
          cases hB : (p.1 == id)
          · rfl
          · exact absurd hB hpk
        rw [List.any_cons, hpkF, Bool.false_or] at hmem
        rw [List.map_cons, if_neg (by simp [hpkF])]
        simp only [detectedCount, List.find?, hpkF] at ih ⊢
        exact ih hmem
  · rw [upsertPattern, if_neg hmem]
    have hfind : t.find? (fun p => p.1 == id) = none := by
      rw [List.find?_eq_none]
      intro p hp hb
      exact hmem (List.any_eq_true.mpr ⟨p, hp, hb⟩)
    rw [detectedCount, detectedCount, List.find?_append, hfind]
    simp [List.find?]

/-- Claim C8: the statistics recording of storeDiagnosis increments the
per-rule detected counter by exactly one per detection through the atomic
`INSERT … ON CONFLICT DO UPDATE times_detected = times_detected + 1` upsert
(modelled as one state transformer, so no application-level read-modify-write
can lose an update), creating the counter row with value 1 on first sight;
recording a rule in two separate calls therefore increases its detected
counter by exactly 2. -/
theorem claim_C8 (t : List (String × PatternRow)) (a : IssueSummary) :
    detectedCount (storeDiagnosisPatterns (storeDiagnosisPatterns t [a]) [a]) a.id =
      detectedCount t a.id + 2 ∧
    (t.find? (fun p => p.1 == a.id) = none →
      storeDiagnosisPatterns t [a] =
        t ++ [(a.id, { title := a.title, severity := a.severity, timesDetected := 1 })]) := by
  constructor
  · show detectedCount (upsertPattern (upsertPattern t a.id a.title a.severity) a.id a.title a.severity) a.id = _
    rw [detectedCount_upsert, detectedCount_upsert]
    omega
  · intro hnone
    show upsertPattern t a.id a.title a.severity = _
    rw [upsertPattern, if_neg]
    intro hany
    rw [List.any_eq_true] at hany
    obtain ⟨p, hp, hb⟩ := hany
    have := List.find?_eq_none.mp hnone p hp
    exact this hb

/-- Counterexample for claim C1: a result reconstructed from the durable
backend and served through the JSON projection of `GET /api/fix/:fixId` is not
free of internal provenance — its `systemInfo` object carries the stored OS
with architecture, the runtime version and the installation version. -/
theorem claim_C1_counterexample :
    responseProvFree (handleGetFix [] [c1Row] [] "abc" false).1 = false ∧
    (match (handleGetFix [] [c1Row] [] "abc" false).1 with
      | GetResponse.json c => c.systemInfo
      | _ => none) =
      some { os := some "linux (x64)", nodeVersion := some "v20.0.0", openclawVersion := some "1.0.0", serviceManager := none, serviceState := none } :=
  ⟨by decide, by decide⟩

/-- Claim C1 as amended: the underscore-prefixed internal fields (host
fingerprint, OS, arch, runtime version, installation version, AI issue list)
are stripped before every serialization — the client projection is independent
of their values — and the host fingerprint is never serialized on any path;
results created by the diagnose pipeline serialize provenance-free (their
projection carries no systemInfo); the plain-script download returns only the
script text. However, a result reconstructed from the durable backend carries
OS/arch, runtime version and installation version in a `systemInfo` object
that the JSON projection passes through to the caller (consumed by the results
page), as the counterexample shows. -/
theorem claim_C1_amended :
    (∀ (f : StoredFix) (h1 h2 h3 h4 h5 : JsVal) (ai : Option (List String)),
      stripInternal { f with hostHash := h1, os := h2, arch := h3, nodeVersion := h4, openclawVersion := h5, aiIssues := ai } = stripInternal f) ∧
    (∀ (diag : Snapshot) (issues : List Issue) (aiAnalysis : AIAnalysis)
        (fixId scriptNow resultNow aiModel : String),
      provenanceFree (stripInternal
        (mkResult diag issues aiAnalysis fixId scriptNow resultNow aiModel)) = true) ∧
    (∀ (cache : FixCache) (db : List DbRow) (patterns : List PatternRec) (k : String)
        (f : StoredFix), cacheGet cache k = some f →
      handleGetFix cache db patterns k true = (GetResponse.script f.fixScript, cache)) := by
  refine ⟨fun f h1 h2 h3 h4 h5 ai => rfl, fun diag issues a i sn rn m => rfl, ?_⟩
  intro cache db patterns k f hget
  rw [handleGetFix, hget]
  rfl

/-- Witness for claim C7: a failing augmenter call over the empty snapshot
still yields the fallback analysis, a non-empty analysis string and an empty
aiInsights string. -/
theorem claim_C7_witness :
    (analyzeWithAI (some "k") (detectIssues emptySnapshot) (Except.error "boom") =
      { summary := "Pattern matching found " ++
          toString (detectIssues emptySnapshot).length ++
          " issue(s). AI analysis unavailable (" ++ "boom" ++ ").",
        insights := "", additionalIssues := [], additionalFixes := "", raw := none }) ∧
    (mkResult emptySnapshot (detectIssues emptySnapshot)
        (analyzeWithAI (some "k") (detectIssues emptySnapshot) (Except.error "boom"))
        "id" "t1" "t2" "m").analysis ≠ "" ∧
    (mkResult emptySnapshot (detectIssues emptySnapshot)
        (analyzeWithAI (some "k") (detectIssues emptySnapshot) (Except.error "boom"))
        "id" "t1" "t2" "m").aiInsights = "" :=
  claim_C7 emptySnapshot "k" "boom" "id" "t1" "t2" "m"

/-- Witness for claim C8: recording the same issue in two separate calls over
the empty table yields a detected counter of 2, and the first call created the
row with counter 1. -/
theorem claim_C8_witness :
    detectedCount (storeDiagnosisPatterns (storeDiagnosisPatterns [] [c8Issue]) [c8Issue])
      c8Issue.id = detectedCount [] c8Issue.id + 2 ∧
    storeDiagnosisPatterns [] [c8Issue] =
      [(c8Issue.id, { title := c8Issue.title, severity := c8Issue.severity, timesDetected := 1 })] :=
  ⟨(claim_C8 [] c8Issue).1, by
    have h8 := (claim_C8 [] c8Issue).2 rfl
    simpa using h8⟩

/-- Witness for the amended claim C1: a cache-hit plain-script download serves
only the script text, the strip is insensitive to concrete internal-field
values, and a pipeline-created result serializes provenance-free. -/
theorem claim_C1_witness :
    (cacheGet [("a", mkSimpleFix "a")] "a" = some (mkSimpleFix "a")) ∧
    handleGetFix [("a", mkSimpleFix "a")] [] [] "a" true =
      (GetResponse.script (mkSimpleFix "a").fixScript, [("a", mkSimpleFix "a")]) ∧
    stripInternal { mkSimpleFix "a" with hostHash := JsVal.str "H", os := JsVal.str "o", arch := JsVal.str "ar", nodeVersion := JsVal.str "n", openclawVersion := JsVal.str "v", aiIssues := some ["x"] } = stripInternal (mkSimpleFix "a") ∧
    provenanceFree (stripInternal (mkResult emptySnapshot [] c2Aug "id" "t1" "t2" "m")) = true :=
  ⟨rfl,
   claim_C1_amended.2.2 [("a", mkSimpleFix "a")] [] [] "a" (mkSimpleFix "a") rfl,
   claim_C1_amended.1 (mkSimpleFix "a") (JsVal.str "H") (JsVal.str "o") (JsVal.str "ar")
     (JsVal.str "n") (JsVal.str "v") (some ["x"]),
   claim_C1_amended.2.1 emptySnapshot [] c2Aug "id" "t1" "t2" "m"⟩

theorem splitNl_ne_nil (xs : List Char) : splitNl xs ≠ [] := by
  induction xs with
  | nil => simp [splitNl]
  | cons c cs ih =>
    simp only [splitNl]
    split
    · simp
    · cases h : splitNl cs with
      | nil => simp
      | cons l ls => simp

theorem splitNl_append (xs ys : List Char) :
    splitNl (xs ++ '\n' :: ys) = splitNl xs ++ splitNl ys := by
  induction xs with
  | nil => simp [splitNl]
  | cons c cs ih =>
    by_cases hc : c = '\n'
    · subst hc
      simp [splitNl, ih]
    · simp only [List.cons_append, splitNl, if_neg hc, List.append_eq]
      rw [ih]
      cases h : splitNl cs with
      | nil => exact absurd h (splitNl_ne_nil cs)
      | cons l ls => simp

theorem splitNl_no_nl (xs : List Char) (h : '\n' ∉ xs) : splitNl xs = [xs] := by
  induction xs with
  | nil => rfl
  | cons c cs ih =>
    simp only [List.mem_cons, not_or] at h
    have hc : ¬ c = '\n' := fun he => h.1 he.symm
    simp only [splitNl, if_neg hc, ih h.2]

theorem intercalate_go_data (as : List String) (acc s : String) :
    (String.intercalate.go acc s as).data =
      acc.data ++ as.flatMap (fun a => s.data ++ a.data) := by
  induction as generalizing acc with
  | nil => simp [String.intercalate.go]
  | cons a as ih =>
    simp [String.intercalate.go, ih, String.data_append, List.append_assoc]

theorem splitNl_chain (as : List String) (a : String) :
    splitNl (a.data ++ as.flatMap (fun x => '\n' :: x.data)) =
      textLines a ++ as.flatMap textLines := by
  induction as generalizing a with
  | nil => simp [textLines]
  | cons b bs ih =>
    have harr : a.data ++ (b :: bs).flatMap (fun x => '\n' :: x.data) =
        a.data ++ '\n' :: (b.data ++ bs.flatMap (fun x => '\n' :: x.data)) := by
      simp
    rw [harr, splitNl_append, ih b]
    simp [textLines]

theorem textLines_intercalate (L : List String) (h : L ≠ []) :
    textLines (String.intercalate "\n" L) = L.flatMap textLines := by
  cases L with
  | nil => exact absurd rfl h
  | cons a as =>
    show splitNl (String.intercalate.go a "\n" as).data = _
    rw [intercalate_go_data]
    have : (as.flatMap fun x => "\n".data ++ x.data) =
        as.flatMap (fun x => '\n' :: x.data) := rfl
    rw [this, splitNl_chain]
    simp [textLines]

theorem count_flatMap_zero (L : List String)
    (h : ∀ s ∈ L, backupMarker.data ∉ textLines s) :
    ((L.flatMap textLines).count backupMarker.data) = 0 := by
  refine List.count_eq_zero.mpr ?_
  intro hmem
  obtain ⟨s, hs, hin⟩ := List.mem_flatMap.mp hmem
  exact h s hs hin

/-- The composed line list decomposes into preamble, backup block, one block
per issue, the two conditional sections and the trailer. -/
theorem genFixLines_shape (issues : List Issue) (aug : AIAnalysis) (fixId now : String) :
    genFixLines issues aug fixId now =
      (preambleLines fixId now ++ backupMarker :: backupTail) ++ issues.flatMap issueBlock ++
        (if aug.additionalFixes ≠ "" then [aiHeaderLine, aug.additionalFixes, ""] else []) ++
        (if issues.any (fun i => strContains i.fix "openclaw.json") then restartBlock else []) ++
        trailerLines fixId := rfl

theorem genFixLines_ne_nil (issues : List Issue) (aug : AIAnalysis) (fixId now : String) :
    genFixLines issues aug fixId now ≠ [] := by
  rw [genFixLines_shape]
  simp [preambleLines]

/-- No line of the fixed preamble is the backup marker (the two lines carrying
the result id and the clock reading included, provided neither embeds a
newline). -/
theorem preamble_no_marker (fixId now : String)
    (h1 : '\n' ∉ fixId.data) (h2 : '\n' ∉ now.data) :
    ∀ s ∈ preambleLines fixId now, backupMarker.data ∉ textLines s := by
  intro s hs
  simp only [preambleLines, List.mem_cons, List.not_mem_nil, or_false] at hs
  rcases hs with rfl | rfl | rfl | rfl | rfl | rfl | rfl | rfl | rfl
  · decide
  · rw [textLines, splitNl_no_nl]
    · intro hm
      simp only [List.mem_singleton] at hm
      have h3 : backupMarker.data.take 3 = ['#', ' ', 'B'] := rfl
      rw [hm] at h3
      revert h3
      simp [String.data_append]
    · rw [String.data_append]
      simp only [List.mem_append, not_or]
      exact ⟨by decide, h1⟩
  · rw [textLines, splitNl_no_nl]
    · intro hm
      simp only [List.mem_singleton] at hm
      have h3 : backupMarker.data.take 3 = ['#', ' ', 'B'] := rfl
      rw [hm] at h3
      revert h3
      simp [String.data_append]
    · rw [String.data_append]
      simp only [List.mem_append, not_or]
      exact ⟨by decide, h2⟩
  · decide
  · decide
  · decide
  · decide
  · decide
  · decide

/-- No line of the closing trailer is the backup marker (the three lines
carrying the result id included, provided the id embeds no newline). -/
theorem trailer_no_marker (fixId : String) (h1 : '\n' ∉ fixId.data) :
    ∀ s ∈ trailerLines fixId, backupMarker.data ∉ textLines s := by
  intro s hs
  simp only [trailerLines, List.mem_cons, List.not_mem_nil, or_false] at hs
  rcases hs with rfl | rfl | rfl | rfl | rfl | rfl | rfl | rfl | rfl
  · decide
  · decide
  · rw [textLines, splitNl_no_nl]
    · intro hm
      simp only [List.mem_singleton] at hm
      have h3 : backupMarker.data.take 3 = ['#', ' ', 'B'] := rfl
      rw [hm] at h3
      revert h3
      simp [String.data_append]
    · simp only [String.data_append, List.mem_append, not_or]
      exact ⟨⟨by decide, h1⟩, by decide⟩
  · decide
  · decide
  · decide
  · rw [textLines, splitNl_no_nl]
    · intro hm
      simp only [List.mem_singleton] at hm
      have h3 : backupMarker.data.take 3 = ['#', ' ', 'B'] := rfl
      rw [hm] at h3
      revert h3
      simp [String.data_append]
    · simp only [String.data_append, List.mem_append, not_or]
      exact ⟨⟨by decide, h1⟩, by decide⟩
  · decide
  · decide

set_option maxRecDepth 4000

/-- The marker count of a composed script, segment by segment: exactly one,
coming from the unconditional backup block, as long as neither the issue
blocks nor the augmenter text smuggle the marker line in and the result id
and clock reading embed no newline. -/
theorem backupBlockCount_eq_one (issues : List Issue) (aug : AIAnalysis)
    (fixId now : String)
    (h1 : '\n' ∉ fixId.data) (h2 : '\n' ∉ now.data)
    (h3 : ∀ i ∈ issues, backupMarker.data ∉ (issueBlock i).flatMap textLines)
    (h4 : backupMarker.data ∉ textLines aug.additionalFixes) :
    backupBlockCount (generateFixScript issues aug fixId now) = 1 := by
  rw [backupBlockCount, generateFixScript,
    textLines_intercalate _ (genFixLines_ne_nil issues aug fixId now), genFixLines_shape]
  simp only [List.flatMap_append, List.count_append, List.flatMap_cons]
  have hA : ((preambleLines fixId now).flatMap textLines).count backupMarker.data = 0 :=
    count_flatMap_zero _ (preamble_no_marker fixId now h1 h2)
  have hM : (textLines backupMarker).count backupMarker.data = 1 := by decide
  have hT : (backupTail.flatMap textLines).count backupMarker.data = 0 := by decide
  have hB : ((issues.flatMap issueBlock).flatMap textLines).count backupMarker.data = 0 := by
    refine List.count_eq_zero.mpr ?_
    intro hmem
    obtain ⟨s, hs, hin⟩ := List.mem_flatMap.mp hmem
    obtain ⟨i, hi, hsi⟩ := List.mem_flatMap.mp hs
    exact h3 i hi (List.mem_flatMap.mpr ⟨s, hsi, hin⟩)
  have hC : (((if aug.additionalFixes ≠ "" then [aiHeaderLine, aug.additionalFixes, ""]
      else []).flatMap textLines).count backupMarker.data) = 0 := by
    split
    · simp only [List.flatMap_cons, List.flatMap_nil, List.count_append, List.append_nil]
      have hh : (textLines aiHeaderLine).count backupMarker.data = 0 := by decide
      have he : (textLines "").count backupMarker.data = 0 := by decide
      rw [hh, List.count_eq_zero.mpr h4, he]
    · simp
  have hD : (((if issues.any (fun i => strContains i.fix "openclaw.json") then restartBlock
      else []).flatMap textLines).count backupMarker.data) = 0 := by
    split
    · decide
    · simp
  have hE : ((trailerLines fixId).flatMap textLines).count backupMarker.data = 0 :=
    count_flatMap_zero _ (trailer_no_marker fixId h1)
  rw [hA, hM, hT, hB, hC, hD, hE]

theorem flatMap_textLines_single (L : List String) (h : ∀ s ∈ L, '\n' ∉ s.data) :
    L.flatMap textLines = L.map String.data := by
  induction L with
  | nil => rfl
  | cons a as ih =>
    rw [List.flatMap_cons, List.map_cons, textLines, splitNl_no_nl _ (h a (List.mem_cons_self a as)),
      ih (fun s hs => h s (List.mem_cons_of_mem _ hs))]
    rfl

theorem preamble_single (fixId now : String)
    (h1 : '\n' ∉ fixId.data) (h2 : '\n' ∉ now.data) :
    ∀ s ∈ preambleLines fixId now, '\n' ∉ s.data := by
  intro s hs
  simp only [preambleLines, List.mem_cons, List.not_mem_nil, or_false] at hs
  rcases hs with rfl | rfl | rfl | rfl | rfl | rfl | rfl | rfl | rfl
  · decide
  · rw [String.data_append]
    simp only [List.mem_append, not_or]
    exact ⟨by decide, h1⟩
  · rw [String.data_append]
    simp only [List.mem_append, not_or]
    exact ⟨by decide, h2⟩
  · decide
  · decide
  · decide
  · decide
  · decide
  · decide

/-- C2: refuted as stated. The composer reads the wall clock inside the call
(`new Date().toISOString()`) and writes it into the `# Generated:` header
line, so two invocations on identical issue lists, identical augmenter output
and identical result id — differing only in the clock reading — produce
different script text. -/
theorem claim_C2_counterexample :
    generateFixScript [] c2Aug "abc" "2026-01-01T00:00:00.000Z" ≠
      generateFixScript [] c2Aug "abc" "2026-01-02T00:00:00.000Z" := by decide

/-- C2 (amended): at a fixed clock reading the composer is deterministic; the
script's first line is the bash shebang and its eighth line is the
strict-mode preamble `set -euo pipefail`; and the script contains exactly one
backup block, provided the result id and clock reading embed no newline, no
issue's emitted block contains the backup marker line, and the augmenter text
does not contain the backup marker line. -/
theorem claim_C2_amended (issues : List Issue) (aug : AIAnalysis) (fixId now now2 : String)
    (h0 : now2 = now)
    (h1 : '\n' ∉ fixId.data) (h2 : '\n' ∉ now.data)
    (h3 : ∀ i ∈ issues, backupMarker.data ∉ (issueBlock i).flatMap textLines)
    (h4 : backupMarker.data ∉ textLines aug.additionalFixes) :
    generateFixScript issues aug fixId now2 = generateFixScript issues aug fixId now ∧
    (textLines (generateFixScript issues aug fixId now)).head? =
      some "#!/usr/bin/env bash".data ∧
    (textLines (generateFixScript issues aug fixId now))[7]? =
      some "set -euo pipefail".data ∧
    backupBlockCount (generateFixScript issues aug fixId now) = 1 := by
  refine ⟨by rw [h0], ?_, ?_, backupBlockCount_eq_one issues aug fixId now h1 h2 h3 h4⟩ <;>
  · rw [generateFixScript, textLines_intercalate _ (genFixLines_ne_nil issues aug fixId now),
      genFixLines_shape]
    simp only [List.flatMap_append]
    rw [flatMap_textLines_single (preambleLines fixId now) (preamble_single fixId now h1 h2)]
    simp [preambleLines]

/-- C2 witness: the amended theorem applied to a one-issue detection result,
the fallback augmenter output and a fixed clock reading; the composed script
has exactly one backup block. -/
theorem claim_C2_witness :
    backupBlockCount (generateFixScript [toIssue noSoulRule] c2Aug "abc"
      "2026-01-01T00:00:00.000Z") = 1 :=
  (claim_C2_amended [toIssue noSoulRule] c2Aug "abc" "2026-01-01T00:00:00.000Z"
    "2026-01-01T00:00:00.000Z" rfl (by decide) (by decide) (by decide) (by decide)).2.2.2
